import Mathlib

/-!
# Default system-event handlers (`components/esp32/event_default_handlers.c`)

A shallow embedding of the default WiFi event handlers and of the dispatcher
`esp_event_process_default`, followed by theorems about them.

Conventions of the embedding:

* A C function that calls into the WiFi driver, the TCP/IP adapter, the event
  loop or the logger is a function of an explicit collaborator record
  `Collab σ` and of the collaborators' state `σ`; it returns the C return
  value together with the state after the call.
* An out-parameter (`uint8_t mac[6]`, `tcpip_adapter_ip_info_t *`,
  `tcpip_adapter_dhcp_status_t *`) is the `out` component of the callee's
  result: the content of the buffer after the call, whatever the return code.
* `ESP_LOGx` is the collaborator `esp_log`, called with the level, the format
  string and the formatted arguments; a field read from the event payload is
  given as the payload itself.
* A read of `g_system_event_handle_table` outside the array makes the
  dispatcher return `none`.
-/

namespace EventDefaultHandlers

/-! ## Data model -/

/-- The C type `esp_err_t` (a signed integer). -/
abbrev esp_err_t := Int

/-- Modelled from the spec: `esp_err.h` is not part of the sources at hand; the
success result of every call. -/
def ESP_OK : esp_err_t := 0

/-- Modelled from the spec: `esp_err.h` is not part of the sources at hand; the
generic failure result, which the dispatcher returns for an invalid event. -/
def ESP_FAIL : esp_err_t := -1

/-- The WiFi driver's interface selector (`esp_wifi.h`, used with `esp_wifi_*`). -/
inductive wifi_interface_t
  | WIFI_IF_STA
  | WIFI_IF_AP
  deriving DecidableEq, Repr

/-- The adapter's interface selector (`tcpip_adapter.h`). -/
inductive tcpip_adapter_if_t
  | TCPIP_ADAPTER_IF_STA
  | TCPIP_ADAPTER_IF_AP
  deriving DecidableEq, Repr

/-- The two receive callbacks the handlers register; `NULL` is `none` of
`Option wifi_rxcb_t`. -/
inductive wifi_rxcb_t
  | tcpip_adapter_sta_input
  | tcpip_adapter_ap_input
  deriving DecidableEq, Repr

/-- An IPv4 address, `ip4_addr_t`: one 32-bit word. -/
structure ip4_addr_t where
  addr : Nat
  deriving DecidableEq, Repr

/-- The struct `tcpip_adapter_ip_info_t`. -/
structure tcpip_adapter_ip_info_t where
  ip : ip4_addr_t
  netmask : ip4_addr_t
  gw : ip4_addr_t
  deriving DecidableEq, Repr

/-- Modelled from the spec: the lwIP constant `IPADDR_ANY` is not part of the
sources at hand; the all-zero "any" address. -/
def IPADDR_ANY : Nat := 0

/-- Modelled from the spec: the lwIP macro `ip4_addr_isany_val` is not part of
the sources at hand; an address is "any" when it is the all-zero address. -/
def ip4_addr_isany_val (a : ip4_addr_t) : Bool := a.addr == IPADDR_ANY

/-- The C type `tcpip_adapter_dhcp_status_t`, an enum held in an integer. -/
abbrev tcpip_adapter_dhcp_status_t := Nat

/-- Modelled from the spec: `tcpip_adapter.h` is not part of the sources at
hand; DhcpStatus is the enumeration Init, Started, Stopped, in this order. -/
def TCPIP_ADAPTER_DHCP_INIT : tcpip_adapter_dhcp_status_t := 0

/-- Modelled from the spec: second value of the DhcpStatus enumeration. -/
def TCPIP_ADAPTER_DHCP_STARTED : tcpip_adapter_dhcp_status_t := 1

/-- Modelled from the spec: third value of the DhcpStatus enumeration. -/
def TCPIP_ADAPTER_DHCP_STOPPED : tcpip_adapter_dhcp_status_t := 2

/-- A MAC address buffer, `uint8_t[6]`, as the list of its bytes. -/
abbrev mac_t := List Nat

/-- The C type `system_event_id_t`, an enum held in an unsigned integer: an
event may carry any id, also one that is not an enumerator. -/
abbrev system_event_id_t := Nat

/-! Modelled from the spec: `esp_event.h` is not part of the sources at hand;
the ordinals of the event kinds are dense and follow the order in which the
spec enumerates them, which is the order of the dispatch table. -/

/-- Modelled from the spec: ordinal of WifiReady. -/
def SYSTEM_EVENT_WIFI_READY : system_event_id_t := 0
/-- Modelled from the spec: ordinal of ScanDone. -/
def SYSTEM_EVENT_SCAN_DONE : system_event_id_t := 1
/-- Modelled from the spec: ordinal of StaStart. -/
def SYSTEM_EVENT_STA_START : system_event_id_t := 2
/-- Modelled from the spec: ordinal of StaStop. -/
def SYSTEM_EVENT_STA_STOP : system_event_id_t := 3
/-- Modelled from the spec: ordinal of StaConnected. -/
def SYSTEM_EVENT_STA_CONNECTED : system_event_id_t := 4
/-- Modelled from the spec: ordinal of StaDisconnected. -/
def SYSTEM_EVENT_STA_DISCONNECTED : system_event_id_t := 5
/-- Modelled from the spec: ordinal of StaAuthModeChange. -/
def SYSTEM_EVENT_STA_AUTHMODE_CHANGE : system_event_id_t := 6
/-- Modelled from the spec: ordinal of StaGotIp. -/
def SYSTEM_EVENT_STA_GOT_IP : system_event_id_t := 7
/-- Modelled from the spec: ordinal of StaWpsSuccess. -/
def SYSTEM_EVENT_STA_WPS_ER_SUCCESS : system_event_id_t := 8
/-- Modelled from the spec: ordinal of StaWpsFailed. -/
def SYSTEM_EVENT_STA_WPS_ER_FAILED : system_event_id_t := 9
/-- Modelled from the spec: ordinal of StaWpsTimeout. -/
def SYSTEM_EVENT_STA_WPS_ER_TIMEOUT : system_event_id_t := 10
/-- Modelled from the spec: ordinal of StaWpsPin. -/
def SYSTEM_EVENT_STA_WPS_ER_PIN : system_event_id_t := 11
/-- Modelled from the spec: ordinal of ApStart. -/
def SYSTEM_EVENT_AP_START : system_event_id_t := 12
/-- Modelled from the spec: ordinal of ApStop. -/
def SYSTEM_EVENT_AP_STOP : system_event_id_t := 13
/-- Modelled from the spec: ordinal of ApStaConnected. -/
def SYSTEM_EVENT_AP_STACONNECTED : system_event_id_t := 14
/-- Modelled from the spec: ordinal of ApStaDisconnected. -/
def SYSTEM_EVENT_AP_STADISCONNECTED : system_event_id_t := 15
/-- Modelled from the spec: ordinal of ApProbeRequestReceived. -/
def SYSTEM_EVENT_AP_PROBEREQRECVED : system_event_id_t := 16
/-- Modelled from the spec: the sentinel that follows the last event kind. -/
def SYSTEM_EVENT_MAX : system_event_id_t := 17

/-- The union `system_event_info_t`, one constructor per member that the
source reads or writes (`event->event_info.<member>`), with the fields it
names. -/
inductive system_event_info_t
  | connected (ssid : List Nat) (ssid_len : Nat) (bssid : mac_t) (channel : Nat) (authmode : Nat)
  | disconnected (ssid : List Nat) (ssid_len : Nat) (bssid : mac_t) (reason : Nat)
  | scan_done (status : Nat) (number : Nat)
  | auth_change (old_mode : Nat) (new_mode : Nat)
  | got_ip (ip_info : tcpip_adapter_ip_info_t)
  | sta_connected (mac : mac_t) (aid : Nat)
  | sta_disconnected (mac : mac_t) (aid : Nat)
  | ap_probereqrecved (rssi : Int) (mac : mac_t)
  deriving DecidableEq, Repr

/-- The struct `system_event_t`. -/
structure system_event_t where
  event_id : system_event_id_t
  event_info : system_event_info_t
  deriving DecidableEq, Repr

/-- Severity of a log line (`ESP_LOGE`, `ESP_LOGW`, `ESP_LOGI`, `ESP_LOGD`,
`ESP_LOGV`). -/
inductive esp_log_level_t
  | ESP_LOG_ERROR
  | ESP_LOG_WARN
  | ESP_LOG_INFO
  | ESP_LOG_DEBUG
  | ESP_LOG_VERBOSE
  deriving DecidableEq, Repr

/-- An argument formatted into a log line. Where the source formats fields of
the payload (`event->event_info.<member>.<field>`), the argument is the
payload they are read from. -/
inductive log_arg_t
  | num (n : Int)
  | str (s : String)
  | payload (info : system_event_info_t)
  deriving DecidableEq, Repr

/-! ## Collaborators -/

/-- Result of a collaborator call without out-parameter, and of a handler:
the returned code and the collaborators' state afterwards. -/
structure Res (σ : Type) where
  err : esp_err_t
  st : σ

/-- Result of a collaborator call with an out-parameter. -/
structure Out (α σ : Type) where
  err : esp_err_t
  out : α
  st : σ

/-- The functions the handlers call and do not define: the WiFi driver
(`esp_wifi_*`), the TCP/IP adapter (`tcpip_adapter_*`), the event loop
(`esp_event_send`) and the logger. Each may read and change the state `σ`. -/
structure Collab (σ : Type) where
  esp_wifi_internal_reg_rxcb : wifi_interface_t → Option wifi_rxcb_t → σ → Res σ
  esp_wifi_get_mac : wifi_interface_t → σ → Out mac_t σ
  esp_wifi_internal_set_sta_ip : σ → Res σ
  tcpip_adapter_get_ip_info : tcpip_adapter_if_t → σ → Out tcpip_adapter_ip_info_t σ
  tcpip_adapter_start : tcpip_adapter_if_t → mac_t → tcpip_adapter_ip_info_t → σ → Res σ
  tcpip_adapter_stop : tcpip_adapter_if_t → σ → Res σ
  tcpip_adapter_up : tcpip_adapter_if_t → σ → Res σ
  tcpip_adapter_down : tcpip_adapter_if_t → σ → Res σ
  tcpip_adapter_dhcpc_get_status : tcpip_adapter_if_t → σ → Out tcpip_adapter_dhcp_status_t σ
  tcpip_adapter_dhcpc_start : tcpip_adapter_if_t → σ → Res σ
  esp_event_send : system_event_t → σ → Res σ
  esp_log : esp_log_level_t → String → List log_arg_t → σ → σ

/-- Format string of the error line of the macro `WIFI_API_CALL_CHECK`. -/
def WIFI_API_CALL_CHECK_fmt : String := "%s %d %s ret=%d"

/-- Arguments of the error line of the macro `WIFI_API_CALL_CHECK`:
`__FUNCTION__`, `__LINE__`, `info` and the code the call returned. -/
def WIFI_API_CALL_CHECK_args (func : String) (line : Nat) (info : String) (err : esp_err_t) :
    List log_arg_t :=
  [.str func, .num line, .str info, .num err]

/-! ## The handlers -/

section Handlers

variable {σ : Type}

/-- The C function `system_event_sta_got_ip_default`. -/
def system_event_sta_got_ip_default (C : Collab σ) (event : system_event_t) (s : σ) : Res σ :=
  -- WIFI_API_CALL_CHECK("esp_wifi_internal_set_sta_ip", esp_wifi_internal_set_sta_ip(), ESP_OK)
  let r := C.esp_wifi_internal_set_sta_ip s
  if ESP_OK ≠ r.err then
    ⟨r.err, C.esp_log .ESP_LOG_ERROR WIFI_API_CALL_CHECK_fmt
      (WIFI_API_CALL_CHECK_args "system_event_sta_got_ip_default" 85
        "esp_wifi_internal_set_sta_ip" r.err) r.st⟩
  else
    -- IP2STR(&event->event_info.got_ip.ip_info.ip), ... .netmask, ... .gw
    ⟨ESP_OK, C.esp_log .ESP_LOG_INFO "ip: IPSTR, mask: IPSTR, gw: IPSTR"
      [.payload event.event_info] r.st⟩

/-- The C function `system_event_ap_start_handle_default`. -/
def system_event_ap_start_handle_default (C : Collab σ) (_event : system_event_t) (s : σ) : Res σ :=
  -- WIFI_API_CALL_CHECK("esp_wifi_internal_reg_rxcb", esp_wifi_internal_reg_rxcb(WIFI_IF_AP, ...), ESP_OK)
  let r := C.esp_wifi_internal_reg_rxcb .WIFI_IF_AP (some .tcpip_adapter_ap_input) s
  if ESP_OK ≠ r.err then
    ⟨r.err, C.esp_log .ESP_LOG_ERROR WIFI_API_CALL_CHECK_fmt
      (WIFI_API_CALL_CHECK_args "system_event_ap_start_handle_default" 100 "esp_wifi_internal_reg_rxcb" r.err) r.st⟩
  else
    -- WIFI_API_CALL_CHECK("esp_wifi_mac_get", esp_wifi_get_mac(WIFI_IF_AP, ap_mac), ESP_OK)
    let m := C.esp_wifi_get_mac .WIFI_IF_AP r.st
    if ESP_OK ≠ m.err then
      ⟨m.err, C.esp_log .ESP_LOG_ERROR WIFI_API_CALL_CHECK_fmt
        (WIFI_API_CALL_CHECK_args "system_event_ap_start_handle_default" 101 "esp_wifi_mac_get" m.err) m.st⟩
    else
      let i := C.tcpip_adapter_get_ip_info .TCPIP_ADAPTER_IF_AP m.st
      let a := C.tcpip_adapter_start .TCPIP_ADAPTER_IF_AP m.out i.out i.st
      ⟨ESP_OK, a.st⟩

/-- The C function `system_event_ap_stop_handle_default`. -/
def system_event_ap_stop_handle_default (C : Collab σ) (_event : system_event_t) (s : σ) : Res σ :=
  let r := C.esp_wifi_internal_reg_rxcb .WIFI_IF_AP none s
  if ESP_OK ≠ r.err then
    ⟨r.err, C.esp_log .ESP_LOG_ERROR WIFI_API_CALL_CHECK_fmt
      (WIFI_API_CALL_CHECK_args "system_event_ap_stop_handle_default" 111 "esp_wifi_internal_reg_rxcb" r.err) r.st⟩
  else
    let a := C.tcpip_adapter_stop .TCPIP_ADAPTER_IF_AP r.st
    ⟨ESP_OK, a.st⟩

/-- The C function `system_event_sta_start_handle_default`. -/
def system_event_sta_start_handle_default (C : Collab σ) (_event : system_event_t) (s : σ) : Res σ :=
  let m := C.esp_wifi_get_mac .WIFI_IF_STA s
  if ESP_OK ≠ m.err then
    ⟨m.err, C.esp_log .ESP_LOG_ERROR WIFI_API_CALL_CHECK_fmt
      (WIFI_API_CALL_CHECK_args "system_event_sta_start_handle_default" 123 "esp_wifi_mac_get" m.err) m.st⟩
  else
    let i := C.tcpip_adapter_get_ip_info .TCPIP_ADAPTER_IF_STA m.st
    let a := C.tcpip_adapter_start .TCPIP_ADAPTER_IF_STA m.out i.out i.st
    ⟨ESP_OK, a.st⟩

/-- The C function `system_event_sta_stop_handle_default`. -/
def system_event_sta_stop_handle_default (C : Collab σ) (_event : system_event_t) (s : σ) : Res σ :=
  let a := C.tcpip_adapter_stop .TCPIP_ADAPTER_IF_STA s
  ⟨ESP_OK, a.st⟩

/-- The C function `system_event_sta_connected_handle_default`. -/
def system_event_sta_connected_handle_default (C : Collab σ) (_event : system_event_t) (s : σ) :
    Res σ :=
  let r := C.esp_wifi_internal_reg_rxcb .WIFI_IF_STA (some .tcpip_adapter_sta_input) s
  if ESP_OK ≠ r.err then
    ⟨r.err, C.esp_log .ESP_LOG_ERROR WIFI_API_CALL_CHECK_fmt
      (WIFI_API_CALL_CHECK_args "system_event_sta_connected_handle_default" 141 "esp_wifi_internal_reg_rxcb" r.err) r.st⟩
  else
    let u := C.tcpip_adapter_up .TCPIP_ADAPTER_IF_STA r.st
    let status := C.tcpip_adapter_dhcpc_get_status .TCPIP_ADAPTER_IF_STA u.st
    if status.out = TCPIP_ADAPTER_DHCP_INIT then
      let d := C.tcpip_adapter_dhcpc_start .TCPIP_ADAPTER_IF_STA status.st
      ⟨ESP_OK, d.st⟩
    else if status.out = TCPIP_ADAPTER_DHCP_STOPPED then
      let sta_ip := C.tcpip_adapter_get_ip_info .TCPIP_ADAPTER_IF_STA status.st
      if !(ip4_addr_isany_val sta_ip.out.ip || ip4_addr_isany_val sta_ip.out.netmask
            || ip4_addr_isany_val sta_ip.out.gw) then
        -- evt.event_id = SYSTEM_EVENT_STA_GOT_IP; memcpy(&evt.event_info.got_ip.ip_info, &sta_ip, ...)
        let evt : system_event_t := ⟨SYSTEM_EVENT_STA_GOT_IP, .got_ip sta_ip.out⟩
        let e := C.esp_event_send evt sta_ip.st
        ⟨ESP_OK, e.st⟩
      else
        ⟨ESP_OK, C.esp_log .ESP_LOG_ERROR "invalid static ip" [] sta_ip.st⟩
    else
      ⟨ESP_OK, status.st⟩

/-- The C function `system_event_sta_disconnected_handle_default`. -/
def system_event_sta_disconnected_handle_default (C : Collab σ) (_event : system_event_t) (s : σ) :
    Res σ :=
  let d := C.tcpip_adapter_down .TCPIP_ADAPTER_IF_STA s
  let r := C.esp_wifi_internal_reg_rxcb .WIFI_IF_STA none d.st
  if ESP_OK ≠ r.err then
    ⟨r.err, C.esp_log .ESP_LOG_ERROR WIFI_API_CALL_CHECK_fmt
      (WIFI_API_CALL_CHECK_args "system_event_sta_disconnected_handle_default" 173 "esp_wifi_internal_reg_rxcb" r.err) r.st⟩
  else
    ⟨ESP_OK, r.st⟩

/-! ## The dispatch table and the dispatcher -/

/-- The C type `system_event_handle_fn_t`. -/
abbrev system_event_handle_fn_t (σ : Type) := Collab σ → system_event_t → σ → Res σ

/-- The struct `system_event_handle_t`; a `NULL` handler is `none`. -/
structure system_event_handle_t (σ : Type) where
  event_id : system_event_id_t
  event_handle : Option (system_event_handle_fn_t σ)

/-- The array `g_system_event_handle_table`. -/
def g_system_event_handle_table : List (system_event_handle_t σ) :=
  [ ⟨SYSTEM_EVENT_WIFI_READY,          none⟩,
    ⟨SYSTEM_EVENT_SCAN_DONE,           none⟩,
    ⟨SYSTEM_EVENT_STA_START,           some system_event_sta_start_handle_default⟩,
    ⟨SYSTEM_EVENT_STA_STOP,            some system_event_sta_stop_handle_default⟩,
    ⟨SYSTEM_EVENT_STA_CONNECTED,       some system_event_sta_connected_handle_default⟩,
    ⟨SYSTEM_EVENT_STA_DISCONNECTED,    some system_event_sta_disconnected_handle_default⟩,
    ⟨SYSTEM_EVENT_STA_AUTHMODE_CHANGE, none⟩,
    ⟨SYSTEM_EVENT_STA_GOT_IP,          some system_event_sta_got_ip_default⟩,
    ⟨SYSTEM_EVENT_STA_WPS_ER_SUCCESS,  none⟩,
    ⟨SYSTEM_EVENT_STA_WPS_ER_FAILED,   none⟩,
    ⟨SYSTEM_EVENT_STA_WPS_ER_TIMEOUT,  none⟩,
    ⟨SYSTEM_EVENT_STA_WPS_ER_PIN,      none⟩,
    ⟨SYSTEM_EVENT_AP_START,            some system_event_ap_start_handle_default⟩,
    ⟨SYSTEM_EVENT_AP_STOP,             some system_event_ap_stop_handle_default⟩,
    ⟨SYSTEM_EVENT_AP_STACONNECTED,     none⟩,
    ⟨SYSTEM_EVENT_AP_STADISCONNECTED,  none⟩,
    ⟨SYSTEM_EVENT_AP_PROBEREQRECVED,   none⟩,
    ⟨SYSTEM_EVENT_MAX,                 none⟩ ]

/-- The level and format string that the `switch` of `esp_system_event_debug`
selects for an event id. -/
def esp_system_event_debug_line (id : system_event_id_t) : esp_log_level_t × String :=
  if id = SYSTEM_EVENT_WIFI_READY then (.ESP_LOG_DEBUG, "SYSTEM_EVENT_WIFI_READY")
  else if id = SYSTEM_EVENT_SCAN_DONE then
    (.ESP_LOG_DEBUG, "SYSTEM_EVENT_SCAN_DONE, status:%d, number:%d")
  else if id = SYSTEM_EVENT_STA_START then (.ESP_LOG_DEBUG, "SYSTEM_EVENT_STA_START")
  else if id = SYSTEM_EVENT_STA_STOP then (.ESP_LOG_DEBUG, "SYSTEM_EVENT_STA_STOP")
  else if id = SYSTEM_EVENT_STA_CONNECTED then
    (.ESP_LOG_DEBUG,
      "SYSTEM_EVENT_STA_CONNECTED, ssid:%s, ssid_len:%d, bssid:MACSTR, channel:%d, authmode:%d")
  else if id = SYSTEM_EVENT_STA_DISCONNECTED then
    (.ESP_LOG_DEBUG, "SYSTEM_EVENT_STA_DISCONNECTED, ssid:%s, ssid_len:%d, bssid:MACSTR, reason:%d")
  else if id = SYSTEM_EVENT_STA_AUTHMODE_CHANGE then
    (.ESP_LOG_DEBUG, "SYSTEM_EVENT_STA_AUTHMODE_CHNAGE, old_mode:%d, new_mode:%d")
  else if id = SYSTEM_EVENT_STA_GOT_IP then
    (.ESP_LOG_DEBUG, "SYSTEM_EVENT_STA_GOTIP, ip:IPSTR, mask:IPSTR, gw:IPSTR")
  else if id = SYSTEM_EVENT_STA_WPS_ER_SUCCESS then
    (.ESP_LOG_DEBUG, "SYSTEM_EVENT_STA_WPS_ER_SUCCESS")
  else if id = SYSTEM_EVENT_STA_WPS_ER_FAILED then
    (.ESP_LOG_DEBUG, "SYSTEM_EVENT_STA_WPS_ER_FAILED")
  else if id = SYSTEM_EVENT_STA_WPS_ER_TIMEOUT then
    (.ESP_LOG_DEBUG, "SYSTEM_EVENT_STA_WPS_ER_TIMEOUT")
  else if id = SYSTEM_EVENT_STA_WPS_ER_PIN then (.ESP_LOG_DEBUG, "SYSTEM_EVENT_STA_WPS_ER_PIN")
  else if id = SYSTEM_EVENT_AP_START then (.ESP_LOG_DEBUG, "SYSTEM_EVENT_AP_START")
  else if id = SYSTEM_EVENT_AP_STOP then (.ESP_LOG_DEBUG, "SYSTEM_EVENT_AP_STOP")
  else if id = SYSTEM_EVENT_AP_STACONNECTED then
    (.ESP_LOG_DEBUG, "SYSTEM_EVENT_AP_STACONNECTED, mac:MACSTR, aid:%d")
  else if id = SYSTEM_EVENT_AP_STADISCONNECTED then
    (.ESP_LOG_DEBUG, "SYSTEM_EVENT_AP_STADISCONNECTED, mac:MACSTR, aid:%d")
  else if id = SYSTEM_EVENT_AP_PROBEREQRECVED then
    (.ESP_LOG_DEBUG, "SYSTEM_EVENT_AP_PROBEREQRECVED, rssi:%d, mac:MACSTR")
  else (.ESP_LOG_WARN, "no such kind of event!")

/-- The arguments that the `switch` of `esp_system_event_debug` formats for an
event: fields of the payload for the kinds whose line prints some, none for
the others. -/
def esp_system_event_debug_args (event : system_event_t) : List log_arg_t :=
  if event.event_id = SYSTEM_EVENT_SCAN_DONE ∨ event.event_id = SYSTEM_EVENT_STA_CONNECTED
      ∨ event.event_id = SYSTEM_EVENT_STA_DISCONNECTED
      ∨ event.event_id = SYSTEM_EVENT_STA_AUTHMODE_CHANGE
      ∨ event.event_id = SYSTEM_EVENT_STA_GOT_IP
      ∨ event.event_id = SYSTEM_EVENT_AP_STACONNECTED
      ∨ event.event_id = SYSTEM_EVENT_AP_STADISCONNECTED
      ∨ event.event_id = SYSTEM_EVENT_AP_PROBEREQRECVED then
    [.payload event.event_info]
  else []

/-- The C function `esp_system_event_debug`; a `NULL` event is `none`. -/
def esp_system_event_debug (C : Collab σ) (event : Option system_event_t) (s : σ) : Res σ :=
  match event with
  | none => ⟨ESP_FAIL, C.esp_log .ESP_LOG_ERROR "event is null!" [] s⟩
  | some ev =>
    ⟨ESP_OK, C.esp_log (esp_system_event_debug_line ev.event_id).1
      (esp_system_event_debug_line ev.event_id).2 (esp_system_event_debug_args ev) s⟩

/-- The C function `esp_event_process_default`; a `NULL` event is `none`. The
result is `none` when the function reads `g_system_event_handle_table` outside
the array. -/
def esp_event_process_default (C : Collab σ) (event : Option system_event_t) (s : σ) :
    Option (Res σ) :=
  match event with
  | none => some ⟨ESP_FAIL, C.esp_log .ESP_LOG_ERROR "Error: event is null!" [] s⟩
  | some ev =>
    let s1 := (esp_system_event_debug C (some ev) s).st
    -- (event->event_id < SYSTEM_EVENT_MAX) && (event->event_id == table[event->event_id].event_id)
    if ev.event_id < SYSTEM_EVENT_MAX then
      match g_system_event_handle_table[ev.event_id]? with
      | none => none
      | some entry =>
        if ev.event_id = entry.event_id then
          match entry.event_handle with
          | some event_handle =>
            let s2 := C.esp_log .ESP_LOG_VERBOSE "enter default callback" [] s1
            -- the value returned by the handler is not used
            let h := event_handle C ev s2
            some ⟨ESP_OK, C.esp_log .ESP_LOG_VERBOSE "exit default callback" [] h.st⟩
          | none => some ⟨ESP_OK, s1⟩
        else
          some ⟨ESP_FAIL, C.esp_log .ESP_LOG_ERROR "mismatch or invalid event, id=%d"
            [.num ev.event_id] s1⟩
    else
      some ⟨ESP_FAIL, C.esp_log .ESP_LOG_ERROR "mismatch or invalid event, id=%d"
            [.num ev.event_id] s1⟩

end Handlers

/-! ## Observing the calls

The handlers above are run against an instrumented collaborator that records
every driver, adapter and event-loop call, with its arguments, before passing
it on to the collaborator it wraps. -/

/-- One call to the WiFi driver, the TCP/IP adapter or the event loop, with
the arguments the caller passed. `esp_wifi_internal_set_sta_ip` takes none. -/
inductive Call
  | esp_wifi_internal_reg_rxcb (ifx : wifi_interface_t) (fn : Option wifi_rxcb_t)
  | esp_wifi_get_mac (ifx : wifi_interface_t)
  | esp_wifi_internal_set_sta_ip
  | tcpip_adapter_get_ip_info (tcpip_if : tcpip_adapter_if_t)
  | tcpip_adapter_start (tcpip_if : tcpip_adapter_if_t) (mac : mac_t)
      (ip_info : tcpip_adapter_ip_info_t)
  | tcpip_adapter_stop (tcpip_if : tcpip_adapter_if_t)
  | tcpip_adapter_up (tcpip_if : tcpip_adapter_if_t)
  | tcpip_adapter_down (tcpip_if : tcpip_adapter_if_t)
  | tcpip_adapter_dhcpc_get_status (tcpip_if : tcpip_adapter_if_t)
  | tcpip_adapter_dhcpc_start (tcpip_if : tcpip_adapter_if_t)
  | esp_event_send (event : system_event_t)
  deriving DecidableEq, Repr

/-- The collaborators' own state together with what has been observed: the
calls made, the log lines written, and, for an event loop that delivers at
once, the events it handed to the dispatcher and those it could not. -/
structure Sys (σ : Type) where
  st : σ
  trace : List Call
  log : List (esp_log_level_t × String × List log_arg_t)
  delivered : List system_event_t
  undelivered : List system_event_t

/-- The start of an observation: nothing called, logged or delivered yet. -/
def Sys.init {σ : Type} (st : σ) : Sys σ := ⟨st, [], [], [], []⟩

/-- Records a call. -/
def Sys.record {σ : Type} (s : Sys σ) (c : Call) : Sys σ := { s with trace := s.trace ++ [c] }

/-- Runs a collaborator call without out-parameter on the wrapped state. -/
def Sys.run {σ : Type} (s : Sys σ) (c : Call) (f : σ → Res σ) : Res (Sys σ) :=
  ⟨(f s.st).err, { s.record c with st := (f s.st).st }⟩

/-- Runs a collaborator call with an out-parameter on the wrapped state. -/
def Sys.runOut {σ α : Type} (s : Sys σ) (c : Call) (f : σ → Out α σ) : Out α (Sys σ) :=
  ⟨(f s.st).err, (f s.st).out, { s.record c with st := (f s.st).st }⟩

/-- The instrumented collaborator: each call is recorded, then answered by
`C`. The event loop of `C` takes the event and does not call the dispatcher
before `esp_event_send` returns. -/
def traced {σ : Type} (C : Collab σ) : Collab (Sys σ) where
  esp_wifi_internal_reg_rxcb ifx fn s :=
    s.run (.esp_wifi_internal_reg_rxcb ifx fn) (C.esp_wifi_internal_reg_rxcb ifx fn)
  esp_wifi_get_mac ifx s := s.runOut (.esp_wifi_get_mac ifx) (C.esp_wifi_get_mac ifx)
  esp_wifi_internal_set_sta_ip s :=
    s.run .esp_wifi_internal_set_sta_ip C.esp_wifi_internal_set_sta_ip
  tcpip_adapter_get_ip_info i s :=
    s.runOut (.tcpip_adapter_get_ip_info i) (C.tcpip_adapter_get_ip_info i)
  tcpip_adapter_start i mac ip s :=
    s.run (.tcpip_adapter_start i mac ip) (C.tcpip_adapter_start i mac ip)
  tcpip_adapter_stop i s := s.run (.tcpip_adapter_stop i) (C.tcpip_adapter_stop i)
  tcpip_adapter_up i s := s.run (.tcpip_adapter_up i) (C.tcpip_adapter_up i)
  tcpip_adapter_down i s := s.run (.tcpip_adapter_down i) (C.tcpip_adapter_down i)
  tcpip_adapter_dhcpc_get_status i s :=
    s.runOut (.tcpip_adapter_dhcpc_get_status i) (C.tcpip_adapter_dhcpc_get_status i)
  tcpip_adapter_dhcpc_start i s :=
    s.run (.tcpip_adapter_dhcpc_start i) (C.tcpip_adapter_dhcpc_start i)
  esp_event_send evt s := s.run (.esp_event_send evt) (C.esp_event_send evt)
  esp_log lvl fmt args s :=
    { s with st := C.esp_log lvl fmt args s.st, log := s.log ++ [(lvl, fmt, args)] }

/-- An event loop that delivers an injected event by calling the dispatcher
at once, from inside `esp_event_send`, at most `depth` sends deep: a send at
depth 0 is recorded as undelivered and fails. Driver, adapter and logger are
those of `traced C`. -/
def immediate_bus {σ : Type} (C : Collab σ) : Nat → Collab (Sys σ)
  | 0 =>
    { traced C with
      esp_event_send := fun evt s =>
        ⟨ESP_FAIL, { s.record (.esp_event_send evt) with undelivered := s.undelivered ++ [evt] }⟩ }
  | depth + 1 =>
    { traced C with
      esp_event_send := fun evt s =>
        let s1 : Sys σ :=
          { s.record (.esp_event_send evt) with delivered := s.delivered ++ [evt] }
        match esp_event_process_default (immediate_bus C depth) (some evt) s1 with
        | some r => r
        | none => ⟨ESP_FAIL, s1⟩ }

/-- The events sent to the event loop in a list of calls, in order. -/
def sent_events : List Call → List system_event_t
  | [] => []
  | .esp_event_send evt :: cs => evt :: sent_events cs
  | _ :: cs => sent_events cs

/-- The IpInfo values that a call passes to its callee. -/
def Call.ip_info_args : Call → List tcpip_adapter_ip_info_t
  | .tcpip_adapter_start _ _ ip_info => [ip_info]
  | .esp_event_send ⟨_, .got_ip ip_info⟩ => [ip_info]
  | _ => []

/-! ## Collaborators with fixed answers -/

/-- The answers of a collaborator that has no state of its own: the code each
call returns and the content of each out-parameter. -/
structure Answers where
  reg_rxcb : wifi_interface_t → Option wifi_rxcb_t → esp_err_t
  get_mac : wifi_interface_t → esp_err_t × mac_t
  set_sta_ip : esp_err_t
  get_ip_info : tcpip_adapter_if_t → esp_err_t × tcpip_adapter_ip_info_t
  start : tcpip_adapter_if_t → esp_err_t
  stop : tcpip_adapter_if_t → esp_err_t
  up : tcpip_adapter_if_t → esp_err_t
  down : tcpip_adapter_if_t → esp_err_t
  dhcpc_get_status : tcpip_adapter_if_t → esp_err_t × tcpip_adapter_dhcp_status_t
  dhcpc_start : tcpip_adapter_if_t → esp_err_t
  event_send : system_event_t → esp_err_t

/-- The stateless collaborator that gives the answers `a`. -/
def Answers.collab (a : Answers) : Collab Unit where
  esp_wifi_internal_reg_rxcb ifx fn s := ⟨a.reg_rxcb ifx fn, s⟩
  esp_wifi_get_mac ifx s := ⟨(a.get_mac ifx).1, (a.get_mac ifx).2, s⟩
  esp_wifi_internal_set_sta_ip s := ⟨a.set_sta_ip, s⟩
  tcpip_adapter_get_ip_info i s := ⟨(a.get_ip_info i).1, (a.get_ip_info i).2, s⟩
  tcpip_adapter_start i _ _ s := ⟨a.start i, s⟩
  tcpip_adapter_stop i s := ⟨a.stop i, s⟩
  tcpip_adapter_up i s := ⟨a.up i, s⟩
  tcpip_adapter_down i s := ⟨a.down i, s⟩
  tcpip_adapter_dhcpc_get_status i s := ⟨(a.dhcpc_get_status i).1, (a.dhcpc_get_status i).2, s⟩
  tcpip_adapter_dhcpc_start i s := ⟨a.dhcpc_start i, s⟩
  esp_event_send evt s := ⟨a.event_send evt, s⟩
  esp_log _ _ _ s := s

/-- The address 192.168.1.50, netmask 255.255.255.0, gateway 192.168.1.1, each
as the 32-bit word lwIP stores on a little-endian target. -/
def static_ip : tcpip_adapter_ip_info_t := ⟨⟨0x3201A8C0⟩, ⟨0x00FFFFFF⟩, ⟨0x0101A8C0⟩⟩

/-- The static configuration above with the gateway left at 0.0.0.0. -/
def static_ip_no_gw : tcpip_adapter_ip_info_t := ⟨⟨0x3201A8C0⟩, ⟨0x00FFFFFF⟩, ⟨0⟩⟩

/-- A station MAC address. -/
def sample_mac : mac_t := [0x24, 0x0A, 0xC4, 0x00, 0x11, 0x22]

/-- Every call succeeds; the station has the static address `static_ip` and
its DHCP client is stopped. -/
def nominal : Answers where
  reg_rxcb _ _ := ESP_OK
  get_mac _ := (ESP_OK, sample_mac)
  set_sta_ip := ESP_OK
  get_ip_info _ := (ESP_OK, static_ip)
  start _ := ESP_OK
  stop _ := ESP_OK
  up _ := ESP_OK
  down _ := ESP_OK
  dhcpc_get_status _ := (ESP_OK, TCPIP_ADAPTER_DHCP_STOPPED)
  dhcpc_start _ := ESP_OK
  event_send _ := ESP_OK

/-- An event of the given kind, with a payload no handler reads. -/
def event_of (id : system_event_id_t) : system_event_t := ⟨id, .scan_done 0 0⟩

/-! ## What the adapter answers while `StaConnected` is handled -/

/-- The answer of `tcpip_adapter_dhcpc_get_status(TCPIP_ADAPTER_IF_STA, &status)`
at the moment the `StaConnected` handler asks: after the registration of the
receive callback and after `tcpip_adapter_up`. -/
def sta_connected_status {σ : Type} (C : Collab σ) (st : σ) : Out tcpip_adapter_dhcp_status_t σ :=
  C.tcpip_adapter_dhcpc_get_status .TCPIP_ADAPTER_IF_STA
    (C.tcpip_adapter_up .TCPIP_ADAPTER_IF_STA
      (C.esp_wifi_internal_reg_rxcb .WIFI_IF_STA (some .tcpip_adapter_sta_input) st).st).st

/-- The answer of `tcpip_adapter_get_ip_info(TCPIP_ADAPTER_IF_STA, &sta_ip)` at
the moment the `StaConnected` handler asks: right after the status query. -/
def sta_connected_ip {σ : Type} (C : Collab σ) (st : σ) : Out tcpip_adapter_ip_info_t σ :=
  C.tcpip_adapter_get_ip_info .TCPIP_ADAPTER_IF_STA (sta_connected_status C st).st

/-! ## Further collaborators used as concrete inputs -/

/-- An error code other than `ESP_OK` and `ESP_FAIL`. -/
def sample_error : esp_err_t := 0x3001

/-- As `nominal`, but the station's gateway is 0.0.0.0. -/
def nominal_no_gw : Answers := { nominal with get_ip_info := fun _ => (ESP_OK, static_ip_no_gw) }

/-- As `nominal`, but every registration of a receive callback fails. -/
def reg_rxcb_fails : Answers := { nominal with reg_rxcb := fun _ _ => sample_error }

/-- As `nominal`, but `tcpip_adapter_up` fails. -/
def adapter_up_fails : Answers := { nominal with up := fun _ => sample_error }

/-- As `nominal`, but reading a MAC address fails. -/
def get_mac_fails : Answers := { nominal with get_mac := fun _ => (sample_error, []) }

/-- As `nominal`, but `esp_wifi_internal_set_sta_ip` fails. -/
def set_sta_ip_fails : Answers := { nominal with set_sta_ip := sample_error }

/-- The collaborator `C` with the code returned by every adapter call replaced
by `code`; out-parameters and state changes are those of `C`. -/
def Collab.adapter_codes {σ : Type} (C : Collab σ) (code : esp_err_t) : Collab σ :=
  { C with
    tcpip_adapter_get_ip_info := fun i s => { C.tcpip_adapter_get_ip_info i s with err := code }
    tcpip_adapter_start := fun i m ip s => { C.tcpip_adapter_start i m ip s with err := code }
    tcpip_adapter_stop := fun i s => { C.tcpip_adapter_stop i s with err := code }
    tcpip_adapter_up := fun i s => { C.tcpip_adapter_up i s with err := code }
    tcpip_adapter_down := fun i s => { C.tcpip_adapter_down i s with err := code }
    tcpip_adapter_dhcpc_get_status := fun i s =>
      { C.tcpip_adapter_dhcpc_get_status i s with err := code }
    tcpip_adapter_dhcpc_start := fun i s => { C.tcpip_adapter_dhcpc_start i s with err := code } }

/-- The all-zero IpInfo of an interface that has no address yet. -/
def all_any_ip : tcpip_adapter_ip_info_t := ⟨⟨0⟩, ⟨0⟩, ⟨0⟩⟩

/-- As `nominal`, but the station has no address yet and its DHCP client has
not been started. -/
def fresh_station : Answers :=
  { nominal with
    get_ip_info := fun _ => (ESP_OK, all_any_ip)
    dhcpc_get_status := fun _ => (ESP_OK, TCPIP_ADAPTER_DHCP_INIT) }

/-- As `nominal`, but the station's DHCP client is running. -/
def dhcp_running : Answers :=
  { nominal with dhcpc_get_status := fun _ => (ESP_OK, TCPIP_ADAPTER_DHCP_STARTED) }

/-- The collaborator `C` with a logger whose effect on the collaborators' state
is `g`, a function of the level and the format string only: what is formatted
into a log line does not reach the driver, the adapter or the event loop. -/
def Collab.with_logger {σ : Type} (C : Collab σ) (g : esp_log_level_t → String → σ → σ) :
    Collab σ :=
  { C with esp_log := fun lvl fmt _ st => g lvl fmt st }

/-- The collaborators' state at the moment the dispatcher calls the handler of
`ev`: after the line of `esp_system_event_debug` and the line "enter default
callback". -/
def handler_entry {σ : Type} (C : Collab σ) (ev : system_event_t) (st : σ) : σ :=
  C.esp_log .ESP_LOG_VERBOSE "enter default callback" [] (esp_system_event_debug C (some ev) st).st

/-- The events that one dispatch of `ev` is to send, as the rule for the
reconnection with a static address states it: `StaGotIp` with the station's
IpInfo when `ev` is `StaConnected`, the registration of the station receive
callback succeeds, the DHCP status is Stopped and address, netmask and gateway
are non-zero; nothing otherwise. To be compared with what the dispatcher
sends. -/
def expected_injection {σ : Type} (C : Collab σ) (ev : system_event_t) (st : σ) :
    List system_event_t :=
  if ev.event_id = SYSTEM_EVENT_STA_CONNECTED ∧
      (C.esp_wifi_internal_reg_rxcb .WIFI_IF_STA (some .tcpip_adapter_sta_input)
        (handler_entry C ev st)).err = ESP_OK ∧
      (sta_connected_status C (handler_entry C ev st)).out = TCPIP_ADAPTER_DHCP_STOPPED ∧
      (sta_connected_ip C (handler_entry C ev st)).out.ip.addr ≠ 0 ∧
      (sta_connected_ip C (handler_entry C ev st)).out.netmask.addr ≠ 0 ∧
      (sta_connected_ip C (handler_entry C ev st)).out.gw.addr ≠ 0
  then [⟨SYSTEM_EVENT_STA_GOT_IP, .got_ip (sta_connected_ip C (handler_entry C ev st)).out⟩]
  else []

/-! ## Roles -/

/-- Modelled from the spec: Role is Station or AccessPoint and selects the
driver and adapter interface a call acts on. -/
inductive Role
  | Station
  | AccessPoint
  deriving DecidableEq, Repr

/-- The role that a driver interface selector stands for. -/
def wifi_interface_t.role : wifi_interface_t → Role
  | .WIFI_IF_STA => .Station
  | .WIFI_IF_AP => .AccessPoint

/-- The role that an adapter interface selector stands for. -/
def tcpip_adapter_if_t.role : tcpip_adapter_if_t → Role
  | .TCPIP_ADAPTER_IF_STA => .Station
  | .TCPIP_ADAPTER_IF_AP => .AccessPoint

/-- The role a call is made for: that of its interface argument;
`esp_wifi_internal_set_sta_ip` is a station call; `esp_event_send` is made for
no role. -/
def Call.role : Call → Option Role
  | .esp_wifi_internal_reg_rxcb ifx _ => some ifx.role
  | .esp_wifi_get_mac ifx => some ifx.role
  | .esp_wifi_internal_set_sta_ip => some .Station
  | .tcpip_adapter_get_ip_info i => some i.role
  | .tcpip_adapter_start i _ _ => some i.role
  | .tcpip_adapter_stop i => some i.role
  | .tcpip_adapter_up i => some i.role
  | .tcpip_adapter_down i => some i.role
  | .tcpip_adapter_dhcpc_get_status i => some i.role
  | .tcpip_adapter_dhcpc_start i => some i.role
  | .esp_event_send _ => none

/-- The calls of a trace that are made for role `r`. -/
def calls_for (r : Role) (t : List Call) : List Call :=
  t.filter (fun c => c.role == some r)

/-- Modelled from the spec: the driver and the adapter are not part of the
sources at hand. Each of their calls takes the role it acts on; the state they
own is per role (interface state, receive callback, DHCP client, IP
configuration, MAC). A call reads and changes the state `ρ` of the role it is
made for, in any way and with any return code; the event loop and the logger
act on a state `β` of their own. -/
structure RoleLocal (ρ β : Type) where
  reg_rxcb : Role → Option wifi_rxcb_t → ρ → Res ρ
  get_mac : Role → ρ → Out mac_t ρ
  set_sta_ip : ρ → Res ρ
  get_ip_info : Role → ρ → Out tcpip_adapter_ip_info_t ρ
  start : Role → mac_t → tcpip_adapter_ip_info_t → ρ → Res ρ
  stop : Role → ρ → Res ρ
  up : Role → ρ → Res ρ
  down : Role → ρ → Res ρ
  dhcpc_get_status : Role → ρ → Out tcpip_adapter_dhcp_status_t ρ
  dhcpc_start : Role → ρ → Res ρ
  event_send : system_event_t → β → Res β
  log : esp_log_level_t → String → List log_arg_t → β → β

/-- Modelled from the spec: the state of the collaborators, one part per role
and one for the event loop and the logger. -/
structure Roles (ρ β : Type) where
  sta : ρ
  ap : ρ
  other : β

/-- The part of the state that belongs to role `r`. -/
def Roles.get {ρ β : Type} (w : Roles ρ β) : Role → ρ
  | .Station => w.sta
  | .AccessPoint => w.ap

/-- The state with the part of role `r` replaced. -/
def Roles.set {ρ β : Type} (w : Roles ρ β) : Role → ρ → Roles ρ β
  | .Station, x => { w with sta := x }
  | .AccessPoint, x => { w with ap := x }

/-- Modelled from the spec: the collaborator made of role-local calls: a call
for role `r` acts on the part of role `r`. -/
def RoleLocal.collab {ρ β : Type} (L : RoleLocal ρ β) : Collab (Roles ρ β) where
  esp_wifi_internal_reg_rxcb ifx fn w :=
    ⟨(L.reg_rxcb ifx.role fn (w.get ifx.role)).err,
      w.set ifx.role (L.reg_rxcb ifx.role fn (w.get ifx.role)).st⟩
  esp_wifi_get_mac ifx w :=
    ⟨(L.get_mac ifx.role (w.get ifx.role)).err, (L.get_mac ifx.role (w.get ifx.role)).out,
      w.set ifx.role (L.get_mac ifx.role (w.get ifx.role)).st⟩
  esp_wifi_internal_set_sta_ip w := ⟨(L.set_sta_ip w.sta).err, { w with sta := (L.set_sta_ip w.sta).st }⟩
  tcpip_adapter_get_ip_info i w :=
    ⟨(L.get_ip_info i.role (w.get i.role)).err, (L.get_ip_info i.role (w.get i.role)).out,
      w.set i.role (L.get_ip_info i.role (w.get i.role)).st⟩
  tcpip_adapter_start i mac ip w :=
    ⟨(L.start i.role mac ip (w.get i.role)).err,
      w.set i.role (L.start i.role mac ip (w.get i.role)).st⟩
  tcpip_adapter_stop i w :=
    ⟨(L.stop i.role (w.get i.role)).err, w.set i.role (L.stop i.role (w.get i.role)).st⟩
  tcpip_adapter_up i w :=
    ⟨(L.up i.role (w.get i.role)).err, w.set i.role (L.up i.role (w.get i.role)).st⟩
  tcpip_adapter_down i w :=
    ⟨(L.down i.role (w.get i.role)).err, w.set i.role (L.down i.role (w.get i.role)).st⟩
  tcpip_adapter_dhcpc_get_status i w :=
    ⟨(L.dhcpc_get_status i.role (w.get i.role)).err,
      (L.dhcpc_get_status i.role (w.get i.role)).out,
      w.set i.role (L.dhcpc_get_status i.role (w.get i.role)).st⟩
  tcpip_adapter_dhcpc_start i w :=
    ⟨(L.dhcpc_start i.role (w.get i.role)).err,
      w.set i.role (L.dhcpc_start i.role (w.get i.role)).st⟩
  esp_event_send evt w := ⟨(L.event_send evt w.other).err, { w with other := (L.event_send evt w.other).st }⟩
  esp_log lvl fmt args w := { w with other := L.log lvl fmt args w.other }

/-- Modelled from the spec: what the driver and the adapter hold for one role:
whether the interface is started, whether it is up, the registered receive
callback, the state of the DHCP client, the IP configuration and the MAC. -/
structure netif_state where
  started : Bool
  link_up : Bool
  rxcb : Option wifi_rxcb_t
  dhcp : tcpip_adapter_dhcp_status_t
  ip_info : tcpip_adapter_ip_info_t
  mac : mac_t
  deriving DecidableEq, Repr

/-- The codes a driver answers with, per role; `ESP_OK` means the call is
carried out. -/
structure Faults where
  reg_rxcb : Role → esp_err_t
  get_mac : Role → esp_err_t
  set_sta_ip : esp_err_t

/-- Modelled from the spec: a driver and an adapter that do what the names of
their calls say: a successful registration stores the callback, `start` and
`stop` set and clear `started`, `up` and `down` set and clear `link_up`,
`dhcpc_start` moves the DHCP client to Started, and the reads return what is
stored. A driver call that fails changes nothing. -/
def simple_ops (f : Faults) : RoleLocal netif_state Unit where
  reg_rxcb r fn n := if f.reg_rxcb r = ESP_OK then ⟨ESP_OK, { n with rxcb := fn }⟩
    else ⟨f.reg_rxcb r, n⟩
  get_mac r n := ⟨f.get_mac r, n.mac, n⟩
  set_sta_ip n := ⟨f.set_sta_ip, n⟩
  get_ip_info _ n := ⟨ESP_OK, n.ip_info, n⟩
  start _ mac ip n := ⟨ESP_OK, { n with started := true, mac := mac, ip_info := ip }⟩
  stop _ n := ⟨ESP_OK, { n with started := false }⟩
  up _ n := ⟨ESP_OK, { n with link_up := true }⟩
  down _ n := ⟨ESP_OK, { n with link_up := false }⟩
  dhcpc_get_status _ n := ⟨ESP_OK, n.dhcp, n⟩
  dhcpc_start _ n := ⟨ESP_OK, { n with dhcp := TCPIP_ADAPTER_DHCP_STARTED }⟩
  event_send _ b := ⟨ESP_OK, b⟩
  log _ _ _ b := b

/-- No driver call fails. -/
def no_faults : Faults := ⟨fun _ => ESP_OK, fun _ => ESP_OK, ESP_OK⟩

/-- The unregistration and registration of the AP receive callback fail. -/
def ap_reg_fault : Faults :=
  ⟨fun r => if r = .AccessPoint then sample_error else ESP_OK, fun _ => ESP_OK, ESP_OK⟩

/-- Reading the AP MAC fails. -/
def ap_mac_fault : Faults :=
  ⟨fun _ => ESP_OK, fun r => if r = .AccessPoint then sample_error else ESP_OK, ESP_OK⟩

/-- An interface that is not started and has nothing configured. -/
def idle_netif : netif_state := ⟨false, false, none, TCPIP_ADAPTER_DHCP_INIT, all_any_ip, sample_mac⟩

/-- A running access point: started, up, with its receive callback
registered. -/
def running_ap : netif_state :=
  ⟨true, true, some .tcpip_adapter_ap_input, TCPIP_ADAPTER_DHCP_STOPPED, static_ip, sample_mac⟩

/-- A connected station with the static address `static_ip`. -/
def connected_sta : netif_state :=
  ⟨true, true, some .tcpip_adapter_sta_input, TCPIP_ADAPTER_DHCP_STOPPED, static_ip, sample_mac⟩

/-! ## Auxiliary facts -/

theorem sent_events_append (a b : List Call) :
    sent_events (a ++ b) = sent_events a ++ sent_events b := by
  induction a with
  | nil => rfl
  | cons c cs ih => cases c <;> simp [sent_events, ih]

theorem dhcp_stopped_ne_init : TCPIP_ADAPTER_DHCP_STOPPED ≠ TCPIP_ADAPTER_DHCP_INIT := by decide

/-! ## Station reconnection with a static address -/

/-- Claim C1: with a station IpInfo whose three fields are non-zero, a successful
registration of the receive callback and DHCP status Stopped, the
`StaConnected` handler calls, in this order, register station receive
callback, interface up, DHCP status, get IpInfo, and then sends exactly one
event, of kind `SYSTEM_EVENT_STA_GOT_IP` and carrying the IpInfo read from the
adapter; it returns `ESP_OK`. -/
theorem sta_connected_static_ip_sends_got_ip {σ : Type} (C : Collab σ) (event : system_event_t)
    (s : Sys σ) (I : tcpip_adapter_ip_info_t)
    (hreg : (C.esp_wifi_internal_reg_rxcb .WIFI_IF_STA (some .tcpip_adapter_sta_input) s.st).err
      = ESP_OK)
    (hstatus : (sta_connected_status C s.st).out = TCPIP_ADAPTER_DHCP_STOPPED)
    (hread : (sta_connected_ip C s.st).out = I)
    (hip : I.ip.addr ≠ 0) (hmask : I.netmask.addr ≠ 0) (hgw : I.gw.addr ≠ 0) :
    (system_event_sta_connected_handle_default (traced C) event s).err = ESP_OK ∧
    (system_event_sta_connected_handle_default (traced C) event s).st.trace =
      s.trace ++
        [ .esp_wifi_internal_reg_rxcb .WIFI_IF_STA (some .tcpip_adapter_sta_input),
          .tcpip_adapter_up .TCPIP_ADAPTER_IF_STA,
          .tcpip_adapter_dhcpc_get_status .TCPIP_ADAPTER_IF_STA,
          .tcpip_adapter_get_ip_info .TCPIP_ADAPTER_IF_STA,
          .esp_event_send ⟨SYSTEM_EVENT_STA_GOT_IP, .got_ip I⟩ ] ∧
    sent_events (system_event_sta_connected_handle_default (traced C) event s).st.trace =
      sent_events s.trace ++ [⟨SYSTEM_EVENT_STA_GOT_IP, .got_ip I⟩] := by
  subst hread
  simp only [sta_connected_status, sta_connected_ip] at hstatus hip hmask hgw ⊢
  simp [system_event_sta_connected_handle_default, traced, Sys.run, Sys.runOut, Sys.record,
    hreg, hstatus, hip, hmask, hgw, ip4_addr_isany_val, IPADDR_ANY, dhcp_stopped_ne_init,
    sent_events_append, sent_events]

/-- The hypotheses of C1 hold for the static address 192.168.1.50. -/
theorem sta_connected_static_ip_sends_got_ip_witness :
    (system_event_sta_connected_handle_default (traced nominal.collab)
        (event_of SYSTEM_EVENT_STA_CONNECTED) (Sys.init ())).err = ESP_OK ∧
    (system_event_sta_connected_handle_default (traced nominal.collab)
        (event_of SYSTEM_EVENT_STA_CONNECTED) (Sys.init ())).st.trace =
      [] ++
        [ .esp_wifi_internal_reg_rxcb .WIFI_IF_STA (some .tcpip_adapter_sta_input),
          .tcpip_adapter_up .TCPIP_ADAPTER_IF_STA,
          .tcpip_adapter_dhcpc_get_status .TCPIP_ADAPTER_IF_STA,
          .tcpip_adapter_get_ip_info .TCPIP_ADAPTER_IF_STA,
          .esp_event_send ⟨SYSTEM_EVENT_STA_GOT_IP, .got_ip static_ip⟩ ] ∧
    sent_events (system_event_sta_connected_handle_default (traced nominal.collab)
        (event_of SYSTEM_EVENT_STA_CONNECTED) (Sys.init ())).st.trace =
      sent_events [] ++ [⟨SYSTEM_EVENT_STA_GOT_IP, .got_ip static_ip⟩] :=
  sta_connected_static_ip_sends_got_ip nominal.collab (event_of SYSTEM_EVENT_STA_CONNECTED)
    (Sys.init ()) static_ip rfl rfl rfl (by decide) (by decide) (by decide)

/-- Claim C4: with a station IpInfo in which the address, the netmask or the
gateway is the all-zero address, a successful registration of the receive
callback and DHCP status Stopped, the `StaConnected` handler registers the
callback, brings the interface up, queries the status, reads the IpInfo, sends
no event and returns `ESP_OK`. -/
theorem sta_connected_invalid_static_ip_sends_nothing {σ : Type} (C : Collab σ)
    (event : system_event_t) (s : Sys σ) (I : tcpip_adapter_ip_info_t)
    (hreg : (C.esp_wifi_internal_reg_rxcb .WIFI_IF_STA (some .tcpip_adapter_sta_input) s.st).err
      = ESP_OK)
    (hstatus : (sta_connected_status C s.st).out = TCPIP_ADAPTER_DHCP_STOPPED)
    (hread : (sta_connected_ip C s.st).out = I)
    (hany : I.ip.addr = 0 ∨ I.netmask.addr = 0 ∨ I.gw.addr = 0) :
    (system_event_sta_connected_handle_default (traced C) event s).err = ESP_OK ∧
    (system_event_sta_connected_handle_default (traced C) event s).st.trace =
      s.trace ++
        [ .esp_wifi_internal_reg_rxcb .WIFI_IF_STA (some .tcpip_adapter_sta_input),
          .tcpip_adapter_up .TCPIP_ADAPTER_IF_STA,
          .tcpip_adapter_dhcpc_get_status .TCPIP_ADAPTER_IF_STA,
          .tcpip_adapter_get_ip_info .TCPIP_ADAPTER_IF_STA ] ∧
    sent_events (system_event_sta_connected_handle_default (traced C) event s).st.trace =
      sent_events s.trace := by
  subst hread
  simp only [sta_connected_status, sta_connected_ip] at hstatus hany ⊢
  rcases hany with h | h | h <;>
    simp [system_event_sta_connected_handle_default, traced, Sys.run, Sys.runOut, Sys.record,
      hreg, hstatus, h, ip4_addr_isany_val, IPADDR_ANY, dhcp_stopped_ne_init, sent_events_append,
      sent_events]

/-- The hypotheses of C4 hold for the static address with gateway 0.0.0.0. -/
theorem sta_connected_invalid_static_ip_sends_nothing_witness :
    (system_event_sta_connected_handle_default (traced nominal_no_gw.collab)
        (event_of SYSTEM_EVENT_STA_CONNECTED) (Sys.init ())).err = ESP_OK ∧
    (system_event_sta_connected_handle_default (traced nominal_no_gw.collab)
        (event_of SYSTEM_EVENT_STA_CONNECTED) (Sys.init ())).st.trace =
      [] ++
        [ .esp_wifi_internal_reg_rxcb .WIFI_IF_STA (some .tcpip_adapter_sta_input),
          .tcpip_adapter_up .TCPIP_ADAPTER_IF_STA,
          .tcpip_adapter_dhcpc_get_status .TCPIP_ADAPTER_IF_STA,
          .tcpip_adapter_get_ip_info .TCPIP_ADAPTER_IF_STA ] ∧
    sent_events (system_event_sta_connected_handle_default (traced nominal_no_gw.collab)
        (event_of SYSTEM_EVENT_STA_CONNECTED) (Sys.init ())).st.trace = sent_events [] :=
  sta_connected_invalid_static_ip_sends_nothing nominal_no_gw.collab
    (event_of SYSTEM_EVENT_STA_CONNECTED) (Sys.init ()) static_ip_no_gw rfl rfl rfl
    (Or.inr (Or.inr rfl))

/-! ## Access-point start -/

/-- Claim C5: if the registration of the AP receive callback fails with the code
`e` while `ApStart` is handled, the handler returns `e` and the registration
is the only call it has made: the AP MAC and IpInfo are not read and the AP
interface is not started. -/
theorem ap_start_reg_rxcb_failure_aborts {σ : Type} (C : Collab σ) (event : system_event_t)
    (s : Sys σ) (e : esp_err_t) (he : e ≠ ESP_OK)
    (hreg : (C.esp_wifi_internal_reg_rxcb .WIFI_IF_AP (some .tcpip_adapter_ap_input) s.st).err
      = e) :
    (system_event_ap_start_handle_default (traced C) event s).err = e ∧
    (system_event_ap_start_handle_default (traced C) event s).st.trace =
      s.trace ++ [ .esp_wifi_internal_reg_rxcb .WIFI_IF_AP (some .tcpip_adapter_ap_input) ] := by
  subst hreg
  simp [system_event_ap_start_handle_default, traced, Sys.run, Sys.record, Ne.symm he]

/-- The hypotheses of C5 hold when the driver refuses the registration. -/
theorem ap_start_reg_rxcb_failure_aborts_witness :
    (system_event_ap_start_handle_default (traced reg_rxcb_fails.collab)
        (event_of SYSTEM_EVENT_AP_START) (Sys.init ())).err = sample_error ∧
    (system_event_ap_start_handle_default (traced reg_rxcb_fails.collab)
        (event_of SYSTEM_EVENT_AP_START) (Sys.init ())).st.trace =
      [] ++ [ .esp_wifi_internal_reg_rxcb .WIFI_IF_AP (some .tcpip_adapter_ap_input) ] :=
  ap_start_reg_rxcb_failure_aborts reg_rxcb_fails.collab (event_of SYSTEM_EVENT_AP_START)
    (Sys.init ()) sample_error (by decide) rfl

/-! ## Station disconnection -/

/-- Claim C7: whatever the collaborators answer, the `StaDisconnected` handler
calls `tcpip_adapter_down(TCPIP_ADAPTER_IF_STA)` first and
`esp_wifi_internal_reg_rxcb(WIFI_IF_STA, NULL)` second, and nothing else; the
interface is thus brought down also when the unregistration fails. -/
theorem sta_disconnected_down_then_unregister {σ : Type} (C : Collab σ) (event : system_event_t)
    (s : Sys σ) :
    (system_event_sta_disconnected_handle_default (traced C) event s).st.trace =
      s.trace ++
        [ .tcpip_adapter_down .TCPIP_ADAPTER_IF_STA,
          .esp_wifi_internal_reg_rxcb .WIFI_IF_STA none ] := by
  by_cases h : ESP_OK = (C.esp_wifi_internal_reg_rxcb .WIFI_IF_STA none
      (C.tcpip_adapter_down .TCPIP_ADAPTER_IF_STA s.st).st).err <;>
    simp [system_event_sta_disconnected_handle_default, traced, Sys.run, Sys.record, h]

/-! ## The dispatcher -/

/-- Claim C8: for a `NULL` event the dispatcher returns `ESP_FAIL` and calls
neither the driver, nor the adapter, nor the event loop. -/
theorem process_default_null_event {σ : Type} (C : Collab σ) (s : Sys σ) :
    ∃ r, esp_event_process_default (traced C) none s = some r ∧
      r.err = ESP_FAIL ∧ r.st.trace = s.trace := by
  simp [esp_event_process_default, traced]

/-- Claim C9: for a present event whose id is `SYSTEM_EVENT_MAX` or greater the
dispatcher returns `ESP_FAIL` and makes no driver, adapter or event-loop call;
for an event whose id is below `SYSTEM_EVENT_MAX` it does not return
`ESP_FAIL`; and in both cases it returns, which it does not when it reads the
table outside the array. -/
theorem process_default_checks_event_id {σ : Type} (C : Collab σ) (ev : system_event_t)
    (s : Sys σ) :
    ∃ r, esp_event_process_default (traced C) (some ev) s = some r ∧
      (SYSTEM_EVENT_MAX ≤ ev.event_id → r.err = ESP_FAIL ∧ r.st.trace = s.trace) ∧
      (ev.event_id < SYSTEM_EVENT_MAX → r.err ≠ ESP_FAIL) := by
  obtain ⟨id, info⟩ := ev
  by_cases h : id < SYSTEM_EVENT_MAX
  · have h17 : id < 17 := h
    have hne : ESP_OK ≠ ESP_FAIL := by decide
    interval_cases id <;>
      simp [esp_event_process_default, g_system_event_handle_table, SYSTEM_EVENT_MAX,
        SYSTEM_EVENT_WIFI_READY, SYSTEM_EVENT_SCAN_DONE, SYSTEM_EVENT_STA_START,
        SYSTEM_EVENT_STA_STOP, SYSTEM_EVENT_STA_CONNECTED, SYSTEM_EVENT_STA_DISCONNECTED,
        SYSTEM_EVENT_STA_AUTHMODE_CHANGE, SYSTEM_EVENT_STA_GOT_IP,
        SYSTEM_EVENT_STA_WPS_ER_SUCCESS, SYSTEM_EVENT_STA_WPS_ER_FAILED,
        SYSTEM_EVENT_STA_WPS_ER_TIMEOUT, SYSTEM_EVENT_STA_WPS_ER_PIN, SYSTEM_EVENT_AP_START,
        SYSTEM_EVENT_AP_STOP, SYSTEM_EVENT_AP_STACONNECTED, SYSTEM_EVENT_AP_STADISCONNECTED,
        SYSTEM_EVENT_AP_PROBEREQRECVED, hne]
  · have h2 : SYSTEM_EVENT_MAX ≤ id := Nat.le_of_not_lt h
    simp [esp_event_process_default, h, h2, esp_system_event_debug, traced]

/-- The two cases of C9 at concrete events: an id beyond the table and the id
of `StaConnected`. -/
theorem process_default_checks_event_id_witness :
    (SYSTEM_EVENT_MAX ≤ (event_of 23).event_id ∧
      ∃ r, esp_event_process_default (traced nominal.collab) (some (event_of 23)) (Sys.init ())
          = some r ∧ r.err = ESP_FAIL ∧ r.st.trace = []) ∧
    ((event_of SYSTEM_EVENT_STA_CONNECTED).event_id < SYSTEM_EVENT_MAX ∧
      ∃ r, esp_event_process_default (traced nominal.collab)
          (some (event_of SYSTEM_EVENT_STA_CONNECTED)) (Sys.init ()) = some r ∧
        r.err ≠ ESP_FAIL) := by
  refine ⟨⟨by decide, ?_⟩, ⟨by decide, ?_⟩⟩
  · obtain ⟨r, hr, hbig, _⟩ :=
      process_default_checks_event_id nominal.collab (event_of 23) (Sys.init ())
    exact ⟨r, hr, hbig (by decide)⟩
  · obtain ⟨r, hr, _, hsmall⟩ :=
      process_default_checks_event_id nominal.collab (event_of SYSTEM_EVENT_STA_CONNECTED)
        (Sys.init ())
    exact ⟨r, hr, hsmall (by decide)⟩

/-- Claim C10: for an event of kind WifiReady, ScanDone, StaAuthModeChange,
StaWpsSuccess, StaWpsFailed, StaWpsTimeout, StaWpsPin, ApStaConnected,
ApStaDisconnected or ApProbeRequestReceived, whatever its payload and the
collaborators, the dispatcher makes no driver, adapter or event-loop call and
returns `ESP_OK`. -/
theorem process_default_no_handler_is_success {σ : Type} (C : Collab σ) (id : system_event_id_t)
    (info : system_event_info_t) (s : Sys σ)
    (hid : id ∈ [SYSTEM_EVENT_WIFI_READY, SYSTEM_EVENT_SCAN_DONE,
      SYSTEM_EVENT_STA_AUTHMODE_CHANGE, SYSTEM_EVENT_STA_WPS_ER_SUCCESS,
      SYSTEM_EVENT_STA_WPS_ER_FAILED, SYSTEM_EVENT_STA_WPS_ER_TIMEOUT,
      SYSTEM_EVENT_STA_WPS_ER_PIN, SYSTEM_EVENT_AP_STACONNECTED,
      SYSTEM_EVENT_AP_STADISCONNECTED, SYSTEM_EVENT_AP_PROBEREQRECVED]) :
    ∃ r, esp_event_process_default (traced C) (some ⟨id, info⟩) s = some r ∧
      r.err = ESP_OK ∧ r.st.trace = s.trace := by
  simp only [List.mem_cons, List.mem_singleton, List.not_mem_nil, or_false] at hid
  rcases hid with h | h | h | h | h | h | h | h | h | h <;> subst h <;>
    simp [esp_event_process_default, g_system_event_handle_table, esp_system_event_debug, traced,
      SYSTEM_EVENT_MAX,
      SYSTEM_EVENT_WIFI_READY, SYSTEM_EVENT_SCAN_DONE, SYSTEM_EVENT_STA_START,
      SYSTEM_EVENT_STA_STOP, SYSTEM_EVENT_STA_CONNECTED, SYSTEM_EVENT_STA_DISCONNECTED,
      SYSTEM_EVENT_STA_AUTHMODE_CHANGE, SYSTEM_EVENT_STA_GOT_IP,
      SYSTEM_EVENT_STA_WPS_ER_SUCCESS, SYSTEM_EVENT_STA_WPS_ER_FAILED,
      SYSTEM_EVENT_STA_WPS_ER_TIMEOUT, SYSTEM_EVENT_STA_WPS_ER_PIN, SYSTEM_EVENT_AP_START,
      SYSTEM_EVENT_AP_STOP, SYSTEM_EVENT_AP_STACONNECTED, SYSTEM_EVENT_AP_STADISCONNECTED,
      SYSTEM_EVENT_AP_PROBEREQRECVED]

/-- The hypothesis of C10 holds for a `ScanDone` event. -/
theorem process_default_no_handler_is_success_witness :
    ∃ r, esp_event_process_default (traced nominal.collab)
        (some ⟨SYSTEM_EVENT_SCAN_DONE, .scan_done 0 3⟩) (Sys.init ()) = some r ∧
      r.err = ESP_OK ∧ r.st.trace = (Sys.init ()).trace :=
  process_default_no_handler_is_success nominal.collab SYSTEM_EVENT_SCAN_DONE (.scan_done 0 3)
    (Sys.init ()) (by decide)

/-- Claim C2, evaluated where it fails: when the driver refuses the registration
of the AP receive callback, the `ApStart` handler returns the driver's code,
and the dispatcher, which does not use the handler's return value, returns
`ESP_OK`. -/
theorem process_default_discards_handler_error :
    (system_event_ap_start_handle_default (traced reg_rxcb_fails.collab)
        (event_of SYSTEM_EVENT_AP_START) (Sys.init ())).err = sample_error ∧
    (esp_event_process_default (traced reg_rxcb_fails.collab)
        (some (event_of SYSTEM_EVENT_AP_START)) (Sys.init ())).map
          (fun r => (r.err, r.st.trace))
      = some (ESP_OK,
          [Call.esp_wifi_internal_reg_rxcb .WIFI_IF_AP (some .tcpip_adapter_ap_input)]) ∧
    sample_error ≠ ESP_OK := by
  refine ⟨rfl, rfl, by decide⟩

/-! ## Injected events under an event loop that delivers at once -/

theorem process_default_got_ip_immediate {σ : Type} (C : Collab σ) (depth : Nat)
    (info : system_event_info_t) (s : Sys σ) :
    ∃ r, esp_event_process_default (immediate_bus C depth)
        (some ⟨SYSTEM_EVENT_STA_GOT_IP, info⟩) s = some r ∧
      r.st.trace = s.trace ++ [Call.esp_wifi_internal_set_sta_ip] ∧
      r.st.delivered = s.delivered ∧ r.st.undelivered = s.undelivered := by
  cases depth <;>
    simp [esp_event_process_default, g_system_event_handle_table, esp_system_event_debug,
      system_event_sta_got_ip_default, immediate_bus, traced, Sys.run, Sys.record,
      SYSTEM_EVENT_MAX, SYSTEM_EVENT_STA_GOT_IP] <;>
    split_ifs <;> simp

theorem immediate_bus_send_got_ip {σ : Type} (C : Collab σ) (depth : Nat)
    (info : system_event_info_t) (s : Sys σ) :
    ((immediate_bus C (depth + 1)).esp_event_send ⟨SYSTEM_EVENT_STA_GOT_IP, info⟩ s).st.trace =
        s.trace ++ [Call.esp_event_send ⟨SYSTEM_EVENT_STA_GOT_IP, info⟩,
          Call.esp_wifi_internal_set_sta_ip] ∧
    ((immediate_bus C (depth + 1)).esp_event_send ⟨SYSTEM_EVENT_STA_GOT_IP, info⟩ s).st.delivered =
        s.delivered ++ [⟨SYSTEM_EVENT_STA_GOT_IP, info⟩] ∧
    ((immediate_bus C (depth + 1)).esp_event_send ⟨SYSTEM_EVENT_STA_GOT_IP, info⟩
        s).st.undelivered = s.undelivered := by
  obtain ⟨r, hr, h1, h2, h3⟩ := process_default_got_ip_immediate C depth info
    { s.record (.esp_event_send ⟨SYSTEM_EVENT_STA_GOT_IP, info⟩) with
      delivered := s.delivered ++ [⟨SYSTEM_EVENT_STA_GOT_IP, info⟩] }
  simp only [immediate_bus, hr]
  simp [h1, h2, h3, Sys.record]

theorem immediate_bus_reg_rxcb {σ : Type} (C : Collab σ) (depth : Nat) :
    (immediate_bus C depth).esp_wifi_internal_reg_rxcb = (traced C).esp_wifi_internal_reg_rxcb := by
  cases depth <;> rfl

theorem immediate_bus_up {σ : Type} (C : Collab σ) (depth : Nat) :
    (immediate_bus C depth).tcpip_adapter_up = (traced C).tcpip_adapter_up := by
  cases depth <;> rfl

theorem immediate_bus_dhcpc_get_status {σ : Type} (C : Collab σ) (depth : Nat) :
    (immediate_bus C depth).tcpip_adapter_dhcpc_get_status =
      (traced C).tcpip_adapter_dhcpc_get_status := by
  cases depth <;> rfl

theorem immediate_bus_dhcpc_start {σ : Type} (C : Collab σ) (depth : Nat) :
    (immediate_bus C depth).tcpip_adapter_dhcpc_start = (traced C).tcpip_adapter_dhcpc_start := by
  cases depth <;> rfl

theorem immediate_bus_get_ip_info {σ : Type} (C : Collab σ) (depth : Nat) :
    (immediate_bus C depth).tcpip_adapter_get_ip_info = (traced C).tcpip_adapter_get_ip_info := by
  cases depth <;> rfl

theorem immediate_bus_log {σ : Type} (C : Collab σ) (depth : Nat) :
    (immediate_bus C depth).esp_log = (traced C).esp_log := by
  cases depth <;> rfl

theorem sta_connected_immediate {σ : Type} (C : Collab σ) (depth : Nat)
    (event : system_event_t) (s : Sys σ) :
    (system_event_sta_connected_handle_default (immediate_bus C (depth + 1)) event s).st.undelivered
      = s.undelivered ∧
    (system_event_sta_connected_handle_default (immediate_bus C (depth + 1)) event
      s).st.delivered.length ≤ s.delivered.length + 1 ∧
    (system_event_sta_connected_handle_default (immediate_bus C (depth + 1)) event
      s).st.trace.count (.esp_wifi_internal_reg_rxcb .WIFI_IF_STA (some .tcpip_adapter_sta_input))
      = s.trace.count (.esp_wifi_internal_reg_rxcb .WIFI_IF_STA (some .tcpip_adapter_sta_input))
        + 1 := by
  simp only [system_event_sta_connected_handle_default, immediate_bus_reg_rxcb, immediate_bus_up,
    immediate_bus_dhcpc_get_status, immediate_bus_dhcpc_start, immediate_bus_get_ip_info,
    immediate_bus_log]
  split_ifs <;>
    simp [traced, Sys.run, Sys.runOut, Sys.record, immediate_bus_send_got_ip]

/-- Claim C3, as stated, fails: dispatching a `StaGotIp` event whose payload is
192.168.1.50/255.255.255.0/192.168.1.1 makes the single call
`esp_wifi_internal_set_sta_ip()`, which has no argument, so no call made by the
dispatch carries the payload. -/
theorem got_ip_payload_not_passed_to_driver :
    (esp_event_process_default (traced nominal.collab)
        (some ⟨SYSTEM_EVENT_STA_GOT_IP, .got_ip static_ip⟩) (Sys.init ())).map
          (fun r => r.st.trace) = some [Call.esp_wifi_internal_set_sta_ip] ∧
    ¬ ∃ r, esp_event_process_default (traced nominal.collab)
        (some ⟨SYSTEM_EVENT_STA_GOT_IP, .got_ip static_ip⟩) (Sys.init ()) = some r ∧
      ∃ c ∈ r.st.trace, static_ip ∈ c.ip_info_args := by
  have h : (esp_event_process_default (traced nominal.collab)
        (some ⟨SYSTEM_EVENT_STA_GOT_IP, .got_ip static_ip⟩) (Sys.init ())).map
          (fun r => r.st.trace) = some [Call.esp_wifi_internal_set_sta_ip] := rfl
  refine ⟨h, ?_⟩
  rintro ⟨r, hr, c, hc, hX⟩
  rw [hr] at h
  simp only [Option.map, Option.some.injEq] at h
  rw [h, List.mem_singleton] at hc
  subst hc
  simp [Call.ip_info_args] at hX

/-- Claim C3, amended: dispatching a `StaGotIp` event with any payload `X` calls
`esp_wifi_internal_set_sta_ip()` once, without argument, makes no other call and
sends no event; and under an event loop that delivers a sent event by calling
the dispatcher at once, dispatching `StaConnected` returns after the loop has
delivered at most one further event (two events processed in all), every sent
event having been delivered, and with the station receive callback registered
exactly once: the delivered `StaGotIp` does not run the `StaConnected` logic
again. -/
theorem got_ip_sets_sta_ip_and_injection_stops {σ : Type} (C : Collab σ)
    (X : tcpip_adapter_ip_info_t) (info : system_event_info_t) (s : Sys σ) (depth : Nat) :
    (∃ r, esp_event_process_default (traced C) (some ⟨SYSTEM_EVENT_STA_GOT_IP, .got_ip X⟩) s
        = some r ∧
      r.st.trace = s.trace ++ [Call.esp_wifi_internal_set_sta_ip] ∧
      sent_events r.st.trace = sent_events s.trace) ∧
    (∃ r, esp_event_process_default (immediate_bus C (depth + 1))
        (some ⟨SYSTEM_EVENT_STA_CONNECTED, info⟩) s = some r ∧
      r.st.undelivered = s.undelivered ∧
      r.st.delivered.length ≤ s.delivered.length + 1 ∧
      r.st.trace.count (.esp_wifi_internal_reg_rxcb .WIFI_IF_STA (some .tcpip_adapter_sta_input))
        = s.trace.count (.esp_wifi_internal_reg_rxcb .WIFI_IF_STA (some .tcpip_adapter_sta_input))
          + 1) := by
  constructor
  · simp [esp_event_process_default, g_system_event_handle_table, esp_system_event_debug,
      system_event_sta_got_ip_default, traced, Sys.run, Sys.record,
      SYSTEM_EVENT_MAX, SYSTEM_EVENT_STA_GOT_IP]
    split_ifs <;> simp [sent_events_append, sent_events]
  · have hlookup : (@g_system_event_handle_table (Sys σ))[SYSTEM_EVENT_STA_CONNECTED]? =
        some ⟨SYSTEM_EVENT_STA_CONNECTED, some system_event_sta_connected_handle_default⟩ := rfl
    have hlt : SYSTEM_EVENT_STA_CONNECTED < SYSTEM_EVENT_MAX := by decide
    simp only [esp_event_process_default, hlookup, hlt, if_true, immediate_bus_log]
    obtain ⟨h1, h2, h3⟩ := sta_connected_immediate C depth ⟨SYSTEM_EVENT_STA_CONNECTED, info⟩
      ((traced C).esp_log .ESP_LOG_VERBOSE "enter default callback" []
        (esp_system_event_debug (immediate_bus C (depth + 1))
          (some ⟨SYSTEM_EVENT_STA_CONNECTED, info⟩) s).st)
    refine ⟨_, rfl, ?_, ?_, ?_⟩
    · simpa [traced, esp_system_event_debug, immediate_bus_log] using h1
    · simpa [traced, esp_system_event_debug, immediate_bus_log] using h2
    · simpa [traced, esp_system_event_debug, immediate_bus_log] using h3

/-- A run under the event loop that delivers at once: with the static address
configured, `StaConnected` sends `StaGotIp`, which is delivered and handled
inside the send; with depth 0 the same event is left undelivered. -/
theorem immediate_bus_nominal_run :
    (esp_event_process_default (immediate_bus nominal.collab 1)
        (some (event_of SYSTEM_EVENT_STA_CONNECTED)) (Sys.init ())).map
          (fun r => (r.err, r.st.trace, r.st.delivered, r.st.undelivered))
      = some (ESP_OK,
          [ .esp_wifi_internal_reg_rxcb .WIFI_IF_STA (some .tcpip_adapter_sta_input),
            .tcpip_adapter_up .TCPIP_ADAPTER_IF_STA,
            .tcpip_adapter_dhcpc_get_status .TCPIP_ADAPTER_IF_STA,
            .tcpip_adapter_get_ip_info .TCPIP_ADAPTER_IF_STA,
            .esp_event_send ⟨SYSTEM_EVENT_STA_GOT_IP, .got_ip static_ip⟩,
            .esp_wifi_internal_set_sta_ip ],
          [⟨SYSTEM_EVENT_STA_GOT_IP, .got_ip static_ip⟩], []) ∧
    (esp_event_process_default (immediate_bus nominal.collab 0)
        (some (event_of SYSTEM_EVENT_STA_CONNECTED)) (Sys.init ())).map
          (fun r => (r.st.delivered, r.st.undelivered))
      = some ([], [⟨SYSTEM_EVENT_STA_GOT_IP, .got_ip static_ip⟩]) :=
  ⟨rfl, rfl⟩

/-! ## Errors of adapter calls and of driver calls -/

/-- Claim C6, as stated, fails: when `tcpip_adapter_up` returns an error while
`StaConnected` is handled, the handler goes on to query the DHCP status, read
the IpInfo and send `StaGotIp`, and returns `ESP_OK`, not that error. -/
theorem sta_connected_ignores_adapter_up_error :
    adapter_up_fails.up .TCPIP_ADAPTER_IF_STA ≠ ESP_OK ∧
    (system_event_sta_connected_handle_default (traced adapter_up_fails.collab)
        (event_of SYSTEM_EVENT_STA_CONNECTED) (Sys.init ())).err = ESP_OK ∧
    (system_event_sta_connected_handle_default (traced adapter_up_fails.collab)
        (event_of SYSTEM_EVENT_STA_CONNECTED) (Sys.init ())).st.trace =
      [ .esp_wifi_internal_reg_rxcb .WIFI_IF_STA (some .tcpip_adapter_sta_input),
        .tcpip_adapter_up .TCPIP_ADAPTER_IF_STA,
        .tcpip_adapter_dhcpc_get_status .TCPIP_ADAPTER_IF_STA,
        .tcpip_adapter_get_ip_info .TCPIP_ADAPTER_IF_STA,
        .esp_event_send ⟨SYSTEM_EVENT_STA_GOT_IP, .got_ip static_ip⟩ ] :=
  ⟨by decide, rfl, rfl⟩

/-- Claim C6, amended: a handler does not look at the code an adapter call
returns: with every adapter code replaced by an arbitrary `code`, each of the
seven handlers makes the same calls, returns the same value and leaves the
same state. A handler stops at a failing driver call instead: if
`esp_wifi_internal_reg_rxcb`, `esp_wifi_get_mac` or
`esp_wifi_internal_set_sta_ip` returns `e` other than `ESP_OK`, the handler
returns `e` and that call is the last one it makes. -/
theorem adapter_codes_ignored_driver_errors_abort {σ : Type} (C : Collab σ)
    (event : system_event_t) (s : Sys σ) (code e : esp_err_t) (he : e ≠ ESP_OK) :
    (system_event_sta_start_handle_default (traced (C.adapter_codes code)) event s =
        system_event_sta_start_handle_default (traced C) event s ∧
      system_event_sta_stop_handle_default (traced (C.adapter_codes code)) event s =
        system_event_sta_stop_handle_default (traced C) event s ∧
      system_event_sta_connected_handle_default (traced (C.adapter_codes code)) event s =
        system_event_sta_connected_handle_default (traced C) event s ∧
      system_event_sta_disconnected_handle_default (traced (C.adapter_codes code)) event s =
        system_event_sta_disconnected_handle_default (traced C) event s ∧
      system_event_sta_got_ip_default (traced (C.adapter_codes code)) event s =
        system_event_sta_got_ip_default (traced C) event s ∧
      system_event_ap_start_handle_default (traced (C.adapter_codes code)) event s =
        system_event_ap_start_handle_default (traced C) event s ∧
      system_event_ap_stop_handle_default (traced (C.adapter_codes code)) event s =
        system_event_ap_stop_handle_default (traced C) event s) ∧
    ((C.esp_wifi_get_mac .WIFI_IF_STA s.st).err = e →
      (system_event_sta_start_handle_default (traced C) event s).err = e ∧
      (system_event_sta_start_handle_default (traced C) event s).st.trace =
        s.trace ++ [.esp_wifi_get_mac .WIFI_IF_STA]) ∧
    ((C.esp_wifi_internal_reg_rxcb .WIFI_IF_STA (some .tcpip_adapter_sta_input) s.st).err = e →
      (system_event_sta_connected_handle_default (traced C) event s).err = e ∧
      (system_event_sta_connected_handle_default (traced C) event s).st.trace =
        s.trace ++ [.esp_wifi_internal_reg_rxcb .WIFI_IF_STA (some .tcpip_adapter_sta_input)]) ∧
    ((C.esp_wifi_internal_reg_rxcb .WIFI_IF_STA none
        (C.tcpip_adapter_down .TCPIP_ADAPTER_IF_STA s.st).st).err = e →
      (system_event_sta_disconnected_handle_default (traced C) event s).err = e ∧
      (system_event_sta_disconnected_handle_default (traced C) event s).st.trace =
        s.trace ++ [.tcpip_adapter_down .TCPIP_ADAPTER_IF_STA,
          .esp_wifi_internal_reg_rxcb .WIFI_IF_STA none]) ∧
    ((C.esp_wifi_internal_set_sta_ip s.st).err = e →
      (system_event_sta_got_ip_default (traced C) event s).err = e ∧
      (system_event_sta_got_ip_default (traced C) event s).st.trace =
        s.trace ++ [.esp_wifi_internal_set_sta_ip]) ∧
    ((C.esp_wifi_internal_reg_rxcb .WIFI_IF_AP (some .tcpip_adapter_ap_input) s.st).err = e →
      (system_event_ap_start_handle_default (traced C) event s).err = e ∧
      (system_event_ap_start_handle_default (traced C) event s).st.trace =
        s.trace ++ [.esp_wifi_internal_reg_rxcb .WIFI_IF_AP (some .tcpip_adapter_ap_input)]) ∧
    ((C.esp_wifi_internal_reg_rxcb .WIFI_IF_AP (some .tcpip_adapter_ap_input) s.st).err = ESP_OK →
      (C.esp_wifi_get_mac .WIFI_IF_AP
        (C.esp_wifi_internal_reg_rxcb .WIFI_IF_AP (some .tcpip_adapter_ap_input) s.st).st).err
          = e →
      (system_event_ap_start_handle_default (traced C) event s).err = e ∧
      (system_event_ap_start_handle_default (traced C) event s).st.trace =
        s.trace ++ [.esp_wifi_internal_reg_rxcb .WIFI_IF_AP (some .tcpip_adapter_ap_input),
          .esp_wifi_get_mac .WIFI_IF_AP]) ∧
    ((C.esp_wifi_internal_reg_rxcb .WIFI_IF_AP none s.st).err = e →
      (system_event_ap_stop_handle_default (traced C) event s).err = e ∧
      (system_event_ap_stop_handle_default (traced C) event s).st.trace =
        s.trace ++ [.esp_wifi_internal_reg_rxcb .WIFI_IF_AP none]) := by
  have he2 : ¬ ESP_OK = e := fun h => he h.symm
  refine ⟨⟨rfl, rfl, rfl, rfl, rfl, rfl, rfl⟩, ?_, ?_, ?_, ?_, ?_, ?_, ?_⟩
  · intro h
    simp [system_event_sta_start_handle_default, traced, Sys.run, Sys.runOut, Sys.record, h, he2]
  · intro h
    simp [system_event_sta_connected_handle_default, traced, Sys.run, Sys.runOut, Sys.record, h,
      he2]
  · intro h
    simp [system_event_sta_disconnected_handle_default, traced, Sys.run, Sys.runOut, Sys.record,
      h, he2]
  · intro h
    simp [system_event_sta_got_ip_default, traced, Sys.run, Sys.runOut, Sys.record, h, he2]
  · intro h
    simp [system_event_ap_start_handle_default, traced, Sys.run, Sys.runOut, Sys.record, h, he2]
  · intro h0 h
    simp [system_event_ap_start_handle_default, traced, Sys.run, Sys.runOut, Sys.record, h0, h,
      he2]
  · intro h
    simp [system_event_ap_stop_handle_default, traced, Sys.run, Sys.runOut, Sys.record, h, he2]

/-- The hypotheses of the amended C6 hold at collaborators whose registration,
MAC read or station-IP call fails with `sample_error`. -/
theorem adapter_codes_ignored_driver_errors_abort_witness :
    sample_error ≠ ESP_OK ∧
    (system_event_sta_start_handle_default (traced get_mac_fails.collab)
      (event_of SYSTEM_EVENT_STA_START) (Sys.init ())).err = sample_error ∧
    (system_event_sta_connected_handle_default (traced reg_rxcb_fails.collab)
      (event_of SYSTEM_EVENT_STA_CONNECTED) (Sys.init ())).err = sample_error ∧
    (system_event_sta_disconnected_handle_default (traced reg_rxcb_fails.collab)
      (event_of SYSTEM_EVENT_STA_DISCONNECTED) (Sys.init ())).err = sample_error ∧
    (system_event_sta_got_ip_default (traced set_sta_ip_fails.collab)
      (event_of SYSTEM_EVENT_STA_GOT_IP) (Sys.init ())).err = sample_error ∧
    (system_event_ap_start_handle_default (traced reg_rxcb_fails.collab)
      (event_of SYSTEM_EVENT_AP_START) (Sys.init ())).err = sample_error ∧
    (system_event_ap_start_handle_default (traced get_mac_fails.collab)
      (event_of SYSTEM_EVENT_AP_START) (Sys.init ())).st.trace =
        (Sys.init ()).trace ++
          [.esp_wifi_internal_reg_rxcb .WIFI_IF_AP (some .tcpip_adapter_ap_input),
            .esp_wifi_get_mac .WIFI_IF_AP] ∧
    (system_event_ap_stop_handle_default (traced reg_rxcb_fails.collab)
      (event_of SYSTEM_EVENT_AP_STOP) (Sys.init ())).err = sample_error := by
  have hne : sample_error ≠ ESP_OK := by decide
  refine ⟨hne, ?_, ?_, ?_, ?_, ?_, ?_, ?_⟩
  · exact ((adapter_codes_ignored_driver_errors_abort get_mac_fails.collab
      (event_of SYSTEM_EVENT_STA_START) (Sys.init ()) ESP_OK sample_error hne).2.1 rfl).1
  · exact ((adapter_codes_ignored_driver_errors_abort reg_rxcb_fails.collab
      (event_of SYSTEM_EVENT_STA_CONNECTED) (Sys.init ()) ESP_OK sample_error hne).2.2.1 rfl).1
  · exact ((adapter_codes_ignored_driver_errors_abort reg_rxcb_fails.collab
      (event_of SYSTEM_EVENT_STA_DISCONNECTED) (Sys.init ()) ESP_OK sample_error
        hne).2.2.2.1 rfl).1
  · exact ((adapter_codes_ignored_driver_errors_abort set_sta_ip_fails.collab
      (event_of SYSTEM_EVENT_STA_GOT_IP) (Sys.init ()) ESP_OK sample_error hne).2.2.2.2.1 rfl).1
  · exact ((adapter_codes_ignored_driver_errors_abort reg_rxcb_fails.collab
      (event_of SYSTEM_EVENT_AP_START) (Sys.init ()) ESP_OK sample_error hne).2.2.2.2.2.1 rfl).1
  · exact ((adapter_codes_ignored_driver_errors_abort get_mac_fails.collab
      (event_of SYSTEM_EVENT_AP_START) (Sys.init ()) ESP_OK sample_error
        hne).2.2.2.2.2.2.1 rfl rfl).2
  · exact ((adapter_codes_ignored_driver_errors_abort reg_rxcb_fails.collab
      (event_of SYSTEM_EVENT_AP_STOP) (Sys.init ()) ESP_OK sample_error hne).2.2.2.2.2.2.2 rfl).1

/-! ## The dispatch table -/

/-- Claim C11: for every event kind `k`, from WifiReady = 0 to
ApProbeRequestReceived = 16, the entry of `g_system_event_handle_table` at
index `k` exists and has kind `k`. -/
theorem table_entry_kind_is_index {σ : Type} (k : system_event_id_t)
    (hk : k < SYSTEM_EVENT_MAX) :
    ((@g_system_event_handle_table σ)[k]?).map (fun entry => entry.event_id) = some k := by
  have h17 : k < 17 := hk
  interval_cases k <;> rfl

/-- The hypothesis of C11 holds for `StaGotIp`. -/
theorem table_entry_kind_is_index_witness :
    ((@g_system_event_handle_table Unit)[SYSTEM_EVENT_STA_GOT_IP]?).map
      (fun entry => entry.event_id) = some SYSTEM_EVENT_STA_GOT_IP :=
  table_entry_kind_is_index SYSTEM_EVENT_STA_GOT_IP (by decide)

/-! ## Station start -/

/-- Claim C12: when reading the station MAC succeeds with `M` and the adapter
holds the IpInfo `I` (any value, the all-zero one included), the `StaStart`
handler calls `esp_wifi_get_mac(WIFI_IF_STA)`, then
`tcpip_adapter_get_ip_info(TCPIP_ADAPTER_IF_STA)`, then
`tcpip_adapter_start(TCPIP_ADAPTER_IF_STA, M, I)`, and nothing else (no DHCP
call, no registration of a receive callback); it returns `ESP_OK`. -/
theorem sta_start_reads_mac_and_ip_then_starts {σ : Type} (C : Collab σ) (event : system_event_t)
    (s : Sys σ) (M : mac_t) (I : tcpip_adapter_ip_info_t)
    (hok : (C.esp_wifi_get_mac .WIFI_IF_STA s.st).err = ESP_OK)
    (hmac : (C.esp_wifi_get_mac .WIFI_IF_STA s.st).out = M)
    (hip : (C.tcpip_adapter_get_ip_info .TCPIP_ADAPTER_IF_STA
      (C.esp_wifi_get_mac .WIFI_IF_STA s.st).st).out = I) :
    (system_event_sta_start_handle_default (traced C) event s).err = ESP_OK ∧
    (system_event_sta_start_handle_default (traced C) event s).st.trace =
      s.trace ++
        [ .esp_wifi_get_mac .WIFI_IF_STA,
          .tcpip_adapter_get_ip_info .TCPIP_ADAPTER_IF_STA,
          .tcpip_adapter_start .TCPIP_ADAPTER_IF_STA M I ] := by
  subst hmac hip
  simp [system_event_sta_start_handle_default, traced, Sys.run, Sys.runOut, Sys.record, hok]

/-- The hypotheses of C12 hold for a station without address: the interface is
started with the MAC read and the all-zero IpInfo. -/
theorem sta_start_reads_mac_and_ip_then_starts_witness :
    (system_event_sta_start_handle_default (traced fresh_station.collab)
        (event_of SYSTEM_EVENT_STA_START) (Sys.init ())).err = ESP_OK ∧
    (system_event_sta_start_handle_default (traced fresh_station.collab)
        (event_of SYSTEM_EVENT_STA_START) (Sys.init ())).st.trace =
      [] ++
        [ .esp_wifi_get_mac .WIFI_IF_STA,
          .tcpip_adapter_get_ip_info .TCPIP_ADAPTER_IF_STA,
          .tcpip_adapter_start .TCPIP_ADAPTER_IF_STA sample_mac ⟨⟨0⟩, ⟨0⟩, ⟨0⟩⟩ ] :=
  sta_start_reads_mac_and_ip_then_starts fresh_station.collab (event_of SYSTEM_EVENT_STA_START)
    (Sys.init ()) sample_mac ⟨⟨0⟩, ⟨0⟩, ⟨0⟩⟩ rfl rfl rfl

/-! ## Station connection: the DHCP client -/

/-- Claim C13: when the registration of the receive callback succeeds and the
DHCP status is Init, the `StaConnected` handler registers the callback, brings
the interface up, queries the status and then starts the station DHCP client,
once; it does not read the IpInfo, sends no event and returns `ESP_OK`. -/
theorem sta_connected_dhcp_init_starts_dhcp {σ : Type} (C : Collab σ) (event : system_event_t)
    (s : Sys σ)
    (hreg : (C.esp_wifi_internal_reg_rxcb .WIFI_IF_STA (some .tcpip_adapter_sta_input) s.st).err
      = ESP_OK)
    (hstatus : (sta_connected_status C s.st).out = TCPIP_ADAPTER_DHCP_INIT) :
    (system_event_sta_connected_handle_default (traced C) event s).err = ESP_OK ∧
    (system_event_sta_connected_handle_default (traced C) event s).st.trace =
      s.trace ++
        [ .esp_wifi_internal_reg_rxcb .WIFI_IF_STA (some .tcpip_adapter_sta_input),
          .tcpip_adapter_up .TCPIP_ADAPTER_IF_STA,
          .tcpip_adapter_dhcpc_get_status .TCPIP_ADAPTER_IF_STA,
          .tcpip_adapter_dhcpc_start .TCPIP_ADAPTER_IF_STA ] ∧
    sent_events (system_event_sta_connected_handle_default (traced C) event s).st.trace =
      sent_events s.trace := by
  simp only [sta_connected_status] at hstatus
  simp [system_event_sta_connected_handle_default, traced, Sys.run, Sys.runOut, Sys.record,
    hreg, hstatus, sent_events_append, sent_events]

/-- The hypotheses of C13 hold for a station whose DHCP client is in Init. -/
theorem sta_connected_dhcp_init_starts_dhcp_witness :
    (system_event_sta_connected_handle_default (traced fresh_station.collab)
        (event_of SYSTEM_EVENT_STA_CONNECTED) (Sys.init ())).err = ESP_OK ∧
    (system_event_sta_connected_handle_default (traced fresh_station.collab)
        (event_of SYSTEM_EVENT_STA_CONNECTED) (Sys.init ())).st.trace =
      [] ++
        [ .esp_wifi_internal_reg_rxcb .WIFI_IF_STA (some .tcpip_adapter_sta_input),
          .tcpip_adapter_up .TCPIP_ADAPTER_IF_STA,
          .tcpip_adapter_dhcpc_get_status .TCPIP_ADAPTER_IF_STA,
          .tcpip_adapter_dhcpc_start .TCPIP_ADAPTER_IF_STA ] ∧
    sent_events (system_event_sta_connected_handle_default (traced fresh_station.collab)
        (event_of SYSTEM_EVENT_STA_CONNECTED) (Sys.init ())).st.trace = sent_events [] :=
  sta_connected_dhcp_init_starts_dhcp fresh_station.collab (event_of SYSTEM_EVENT_STA_CONNECTED)
    (Sys.init ()) rfl rfl

/-- Claim C14: when the registration of the receive callback succeeds and the
DHCP status is neither Init nor Stopped (Started, or any other value), the
`StaConnected` handler registers the callback, brings the interface up,
queries the status and makes no further call: no DHCP start, no IpInfo read,
no event sent; it returns `ESP_OK`. -/
theorem sta_connected_other_dhcp_status_no_action {σ : Type} (C : Collab σ)
    (event : system_event_t) (s : Sys σ)
    (hreg : (C.esp_wifi_internal_reg_rxcb .WIFI_IF_STA (some .tcpip_adapter_sta_input) s.st).err
      = ESP_OK)
    (hinit : (sta_connected_status C s.st).out ≠ TCPIP_ADAPTER_DHCP_INIT)
    (hstopped : (sta_connected_status C s.st).out ≠ TCPIP_ADAPTER_DHCP_STOPPED) :
    (system_event_sta_connected_handle_default (traced C) event s).err = ESP_OK ∧
    (system_event_sta_connected_handle_default (traced C) event s).st.trace =
      s.trace ++
        [ .esp_wifi_internal_reg_rxcb .WIFI_IF_STA (some .tcpip_adapter_sta_input),
          .tcpip_adapter_up .TCPIP_ADAPTER_IF_STA,
          .tcpip_adapter_dhcpc_get_status .TCPIP_ADAPTER_IF_STA ] ∧
    sent_events (system_event_sta_connected_handle_default (traced C) event s).st.trace =
      sent_events s.trace := by
  simp only [sta_connected_status] at hinit hstopped
  simp [system_event_sta_connected_handle_default, traced, Sys.run, Sys.runOut, Sys.record,
    hreg, hinit, hstopped, sent_events_append, sent_events]

/-- The hypotheses of C14 hold for a station whose DHCP client is Started. -/
theorem sta_connected_other_dhcp_status_no_action_witness :
    (system_event_sta_connected_handle_default (traced dhcp_running.collab)
        (event_of SYSTEM_EVENT_STA_CONNECTED) (Sys.init ())).err = ESP_OK ∧
    (system_event_sta_connected_handle_default (traced dhcp_running.collab)
        (event_of SYSTEM_EVENT_STA_CONNECTED) (Sys.init ())).st.trace =
      [] ++
        [ .esp_wifi_internal_reg_rxcb .WIFI_IF_STA (some .tcpip_adapter_sta_input),
          .tcpip_adapter_up .TCPIP_ADAPTER_IF_STA,
          .tcpip_adapter_dhcpc_get_status .TCPIP_ADAPTER_IF_STA ] ∧
    sent_events (system_event_sta_connected_handle_default (traced dhcp_running.collab)
        (event_of SYSTEM_EVENT_STA_CONNECTED) (Sys.init ())).st.trace = sent_events [] :=
  sta_connected_other_dhcp_status_no_action dhcp_running.collab
    (event_of SYSTEM_EVENT_STA_CONNECTED) (Sys.init ()) rfl (by decide) (by decide)

/-! ## The result of sending the injected event -/

/-- Claim C15: on the static-IP path of the `StaConnected` handler (registration
succeeded, DHCP status Stopped, IpInfo without zero field), whatever
`esp_event_send` does and returns, the handler has sent the `StaGotIp` event
and returns `ESP_OK`: a failed send does not fail the handler. -/
theorem sta_connected_send_result_ignored {σ : Type} (C : Collab σ)
    (send : system_event_t → σ → Res σ) (event : system_event_t) (s : Sys σ)
    (I : tcpip_adapter_ip_info_t)
    (hreg : (C.esp_wifi_internal_reg_rxcb .WIFI_IF_STA (some .tcpip_adapter_sta_input) s.st).err
      = ESP_OK)
    (hstatus : (sta_connected_status C s.st).out = TCPIP_ADAPTER_DHCP_STOPPED)
    (hread : (sta_connected_ip C s.st).out = I)
    (hip : I.ip.addr ≠ 0) (hmask : I.netmask.addr ≠ 0) (hgw : I.gw.addr ≠ 0) :
    (system_event_sta_connected_handle_default (traced { C with esp_event_send := send })
      event s).err = ESP_OK ∧
    sent_events (system_event_sta_connected_handle_default
      (traced { C with esp_event_send := send }) event s).st.trace =
        sent_events s.trace ++ [⟨SYSTEM_EVENT_STA_GOT_IP, .got_ip I⟩] := by
  subst hread
  simp only [sta_connected_status, sta_connected_ip] at hstatus hip hmask hgw ⊢
  simp [system_event_sta_connected_handle_default, traced, Sys.run, Sys.runOut, Sys.record,
    hreg, hstatus, hip, hmask, hgw, ip4_addr_isany_val, IPADDR_ANY, dhcp_stopped_ne_init,
    sent_events_append, sent_events]

/-- The hypotheses of C15 hold for the static address 192.168.1.50, with an
event loop whose send fails. -/
theorem sta_connected_send_result_ignored_witness :
    ESP_FAIL ≠ ESP_OK ∧
    (system_event_sta_connected_handle_default
      (traced { nominal.collab with esp_event_send := fun _ st => ⟨ESP_FAIL, st⟩ })
      (event_of SYSTEM_EVENT_STA_CONNECTED) (Sys.init ())).err = ESP_OK ∧
    sent_events (system_event_sta_connected_handle_default
      (traced { nominal.collab with esp_event_send := fun _ st => ⟨ESP_FAIL, st⟩ })
      (event_of SYSTEM_EVENT_STA_CONNECTED) (Sys.init ())).st.trace =
        sent_events [] ++ [⟨SYSTEM_EVENT_STA_GOT_IP, .got_ip static_ip⟩] :=
  ⟨by decide,
    sta_connected_send_result_ignored nominal.collab (fun _ st => ⟨ESP_FAIL, st⟩)
      (event_of SYSTEM_EVENT_STA_CONNECTED) (Sys.init ()) static_ip rfl rfl rfl
      (by decide) (by decide) (by decide)⟩

/-! ## Access-point stop, and access-point start without MAC -/

/-- Claim C16: the `ApStop` handler calls `esp_wifi_internal_reg_rxcb(WIFI_IF_AP,
NULL)` first; when that succeeds it calls `tcpip_adapter_stop(TCPIP_ADAPTER_IF_AP)`
second and returns `ESP_OK`; when it fails with `e` the handler returns `e` and
the unregistration is its only call, so the AP interface is not stopped: in the
driver and adapter described by `simple_ops`, an AP that was started is still
started. -/
theorem ap_stop_unregisters_then_stops {σ : Type} (C : Collab σ) (event : system_event_t)
    (s : Sys σ) (e : esp_err_t) (he : e ≠ ESP_OK) :
    ((C.esp_wifi_internal_reg_rxcb .WIFI_IF_AP none s.st).err = ESP_OK →
      (system_event_ap_stop_handle_default (traced C) event s).err = ESP_OK ∧
      (system_event_ap_stop_handle_default (traced C) event s).st.trace =
        s.trace ++ [ .esp_wifi_internal_reg_rxcb .WIFI_IF_AP none,
          .tcpip_adapter_stop .TCPIP_ADAPTER_IF_AP ]) ∧
    ((C.esp_wifi_internal_reg_rxcb .WIFI_IF_AP none s.st).err = e →
      (system_event_ap_stop_handle_default (traced C) event s).err = e ∧
      (system_event_ap_stop_handle_default (traced C) event s).st.trace =
        s.trace ++ [ .esp_wifi_internal_reg_rxcb .WIFI_IF_AP none ]) ∧
    (∀ (f : Faults) (w : Roles netif_state Unit), f.reg_rxcb .AccessPoint = e →
      (system_event_ap_stop_handle_default (traced (simple_ops f).collab) event
        (Sys.init w)).st.st.ap.started = w.ap.started) := by
  have he2 : ¬ ESP_OK = e := fun h => he h.symm
  refine ⟨?_, ?_, ?_⟩
  · intro h
    simp [system_event_ap_stop_handle_default, traced, Sys.run, Sys.record, h]
  · intro h
    simp [system_event_ap_stop_handle_default, traced, Sys.run, Sys.record, h, he2]
  · intro f w h
    simp [system_event_ap_stop_handle_default, traced, Sys.run, Sys.record, Sys.init,
      RoleLocal.collab, simple_ops, wifi_interface_t.role, Roles.get, Roles.set, h, he, he2]

/-- The cases of C16 at concrete collaborators: an unregistration that
succeeds, one that fails, and a running AP whose unregistration fails. -/
theorem ap_stop_unregisters_then_stops_witness :
    sample_error ≠ ESP_OK ∧
    (system_event_ap_stop_handle_default (traced nominal.collab)
      (event_of SYSTEM_EVENT_AP_STOP) (Sys.init ())).st.trace =
        [] ++ [ .esp_wifi_internal_reg_rxcb .WIFI_IF_AP none,
          .tcpip_adapter_stop .TCPIP_ADAPTER_IF_AP ] ∧
    (system_event_ap_stop_handle_default (traced reg_rxcb_fails.collab)
      (event_of SYSTEM_EVENT_AP_STOP) (Sys.init ())).st.trace =
        [] ++ [ .esp_wifi_internal_reg_rxcb .WIFI_IF_AP none ] ∧
    (system_event_ap_stop_handle_default (traced (simple_ops ap_reg_fault).collab)
      (event_of SYSTEM_EVENT_AP_STOP)
      (Sys.init ⟨connected_sta, running_ap, ()⟩)).st.st.ap.started = true := by
  have hne : sample_error ≠ ESP_OK := by decide
  refine ⟨hne, ?_, ?_, ?_⟩
  · exact ((ap_stop_unregisters_then_stops nominal.collab (event_of SYSTEM_EVENT_AP_STOP)
      (Sys.init ()) sample_error hne).1 rfl).2
  · exact ((ap_stop_unregisters_then_stops reg_rxcb_fails.collab (event_of SYSTEM_EVENT_AP_STOP)
      (Sys.init ()) sample_error hne).2.1 rfl).2
  · exact (ap_stop_unregisters_then_stops nominal.collab (event_of SYSTEM_EVENT_AP_STOP)
      (Sys.init ()) sample_error hne).2.2 ap_reg_fault ⟨connected_sta, running_ap, ()⟩ rfl

/-- Claim C17: in the `ApStart` handler, when the registration of the AP receive
callback succeeds and reading the AP MAC then fails with `e`, the handler
returns `e` and its calls are exactly the registration and the MAC read: the
interface is not started and the callback is not unregistered. In the driver
and adapter described by `simple_ops` the callback is then registered and the
AP is started only if it was before. -/
theorem ap_start_mac_failure_keeps_registration {σ : Type} (C : Collab σ)
    (event : system_event_t) (s : Sys σ) (e : esp_err_t) (he : e ≠ ESP_OK)
    (hreg : (C.esp_wifi_internal_reg_rxcb .WIFI_IF_AP (some .tcpip_adapter_ap_input) s.st).err
      = ESP_OK)
    (hmac : (C.esp_wifi_get_mac .WIFI_IF_AP
      (C.esp_wifi_internal_reg_rxcb .WIFI_IF_AP (some .tcpip_adapter_ap_input) s.st).st).err
        = e) :
    (system_event_ap_start_handle_default (traced C) event s).err = e ∧
    (system_event_ap_start_handle_default (traced C) event s).st.trace =
      s.trace ++ [ .esp_wifi_internal_reg_rxcb .WIFI_IF_AP (some .tcpip_adapter_ap_input),
        .esp_wifi_get_mac .WIFI_IF_AP ] ∧
    (∀ (f : Faults) (w : Roles netif_state Unit), f.reg_rxcb .AccessPoint = ESP_OK →
      f.get_mac .AccessPoint = e →
      (system_event_ap_start_handle_default (traced (simple_ops f).collab) event
        (Sys.init w)).st.st.ap.rxcb = some .tcpip_adapter_ap_input ∧
      (system_event_ap_start_handle_default (traced (simple_ops f).collab) event
        (Sys.init w)).st.st.ap.started = w.ap.started) := by
  have he2 : ¬ ESP_OK = e := fun h => he h.symm
  refine ⟨?_, ?_, ?_⟩
  · simp [system_event_ap_start_handle_default, traced, Sys.run, Sys.runOut, Sys.record, hreg,
      hmac, he2]
  · simp [system_event_ap_start_handle_default, traced, Sys.run, Sys.runOut, Sys.record, hreg,
      hmac, he2]
  · intro f w h1 h2
    simp [system_event_ap_start_handle_default, traced, Sys.run, Sys.runOut, Sys.record, Sys.init,
      RoleLocal.collab, simple_ops, wifi_interface_t.role, Roles.get, Roles.set, h1, h2, he2]

/-- The hypotheses of C17 hold when the driver cannot give the AP MAC; in the
world of `simple_ops` an idle AP ends with its callback registered and not
started. -/
theorem ap_start_mac_failure_keeps_registration_witness :
    (system_event_ap_start_handle_default (traced get_mac_fails.collab)
      (event_of SYSTEM_EVENT_AP_START) (Sys.init ())).err = sample_error ∧
    (system_event_ap_start_handle_default (traced get_mac_fails.collab)
      (event_of SYSTEM_EVENT_AP_START) (Sys.init ())).st.trace =
        [] ++ [ .esp_wifi_internal_reg_rxcb .WIFI_IF_AP (some .tcpip_adapter_ap_input),
          .esp_wifi_get_mac .WIFI_IF_AP ] ∧
    (system_event_ap_start_handle_default (traced (simple_ops ap_mac_fault).collab)
      (event_of SYSTEM_EVENT_AP_START)
      (Sys.init ⟨idle_netif, idle_netif, ()⟩)).st.st.ap.rxcb = some .tcpip_adapter_ap_input ∧
    (system_event_ap_start_handle_default (traced (simple_ops ap_mac_fault).collab)
      (event_of SYSTEM_EVENT_AP_START)
      (Sys.init ⟨idle_netif, idle_netif, ()⟩)).st.st.ap.started = false := by
  obtain ⟨h1, h2, h3⟩ := ap_start_mac_failure_keeps_registration get_mac_fails.collab
    (event_of SYSTEM_EVENT_AP_START) (Sys.init ()) sample_error (by decide) rfl rfl
  exact ⟨h1, h2, h3 ap_mac_fault ⟨idle_netif, idle_netif, ()⟩ rfl rfl⟩

/-! ## The payload and the log -/

/-- Claim C18: two present events of the same kind that differ in their payload
are dispatched alike: the dispatcher returns the same value, makes the same
driver, adapter and event-loop calls with the same arguments and leaves the
collaborators in the same state. The payload is formatted into log lines only,
and what is formatted into a log line does not reach the collaborators
(`Collab.with_logger`). -/
theorem payload_does_not_influence_dispatch {σ : Type} (C : Collab σ)
    (g : esp_log_level_t → String → σ → σ) (id : system_event_id_t)
    (info1 info2 : system_event_info_t) (s : Sys σ) :
    (esp_event_process_default (traced (C.with_logger g)) (some ⟨id, info1⟩) s).map
        (fun r => (r.err, r.st.trace, r.st.st)) =
      (esp_event_process_default (traced (C.with_logger g)) (some ⟨id, info2⟩) s).map
        (fun r => (r.err, r.st.trace, r.st.st)) := by
  by_cases h : id < SYSTEM_EVENT_MAX
  · have h17 : id < 17 := h
    interval_cases id <;> try rfl
    all_goals
      simp [esp_event_process_default, g_system_event_handle_table, esp_system_event_debug,
        system_event_sta_connected_handle_default, system_event_sta_disconnected_handle_default,
        system_event_sta_got_ip_default, SYSTEM_EVENT_MAX, SYSTEM_EVENT_STA_CONNECTED,
        SYSTEM_EVENT_STA_DISCONNECTED, SYSTEM_EVENT_STA_GOT_IP, traced, Collab.with_logger,
        Sys.run, Sys.runOut, Sys.record]
      split_ifs <;> simp
  · simp [esp_event_process_default, h, esp_system_event_debug, traced, Collab.with_logger]

/-- The payload does reach the log: the lines written for two `StaGotIp` events
with different payloads differ. -/
theorem payload_reaches_log :
    (esp_event_process_default (traced nominal.collab)
        (some ⟨SYSTEM_EVENT_STA_GOT_IP, .got_ip static_ip⟩) (Sys.init ())).map
          (fun r => r.st.log) ≠
      (esp_event_process_default (traced nominal.collab)
        (some ⟨SYSTEM_EVENT_STA_GOT_IP, .got_ip static_ip_no_gw⟩) (Sys.init ())).map
          (fun r => r.st.log) := by
  decide

/-! ## When an event is injected -/

theorem process_default_sends_expected {σ : Type} (C : Collab σ) (ev : system_event_t)
    (s : Sys σ) :
    ∃ r, esp_event_process_default (traced C) (some ev) s = some r ∧
      sent_events r.st.trace = sent_events s.trace ++ expected_injection C ev s.st := by
  obtain ⟨id, info⟩ := ev
  by_cases h : id < SYSTEM_EVENT_MAX
  · have h17 : id < 17 := h
    interval_cases id <;>
      simp [esp_event_process_default, g_system_event_handle_table, esp_system_event_debug,
        expected_injection, handler_entry, sta_connected_status, sta_connected_ip,
        system_event_sta_start_handle_default, system_event_sta_stop_handle_default,
        system_event_sta_connected_handle_default, system_event_sta_disconnected_handle_default,
        system_event_sta_got_ip_default, system_event_ap_start_handle_default,
        system_event_ap_stop_handle_default, ip4_addr_isany_val, IPADDR_ANY,
        traced, Sys.run, Sys.runOut, Sys.record, sent_events_append, sent_events,
        SYSTEM_EVENT_MAX,
        SYSTEM_EVENT_WIFI_READY, SYSTEM_EVENT_SCAN_DONE, SYSTEM_EVENT_STA_START,
        SYSTEM_EVENT_STA_STOP, SYSTEM_EVENT_STA_CONNECTED, SYSTEM_EVENT_STA_DISCONNECTED,
        SYSTEM_EVENT_STA_AUTHMODE_CHANGE, SYSTEM_EVENT_STA_GOT_IP,
        SYSTEM_EVENT_STA_WPS_ER_SUCCESS, SYSTEM_EVENT_STA_WPS_ER_FAILED,
        SYSTEM_EVENT_STA_WPS_ER_TIMEOUT, SYSTEM_EVENT_STA_WPS_ER_PIN, SYSTEM_EVENT_AP_START,
        SYSTEM_EVENT_AP_STOP, SYSTEM_EVENT_AP_STACONNECTED, SYSTEM_EVENT_AP_STADISCONNECTED,
        SYSTEM_EVENT_AP_PROBEREQRECVED] <;>
      split_ifs <;> simp_all [sent_events_append, sent_events, dhcp_stopped_ne_init]
  · have hne : id ≠ SYSTEM_EVENT_STA_CONNECTED := by
      intro h4; subst h4; exact h (by decide)
    simp [esp_event_process_default, h, esp_system_event_debug, traced, expected_injection, hne]

/-- Claim C19: one call of the dispatcher sends at most one event. For a `NULL`
event it sends none. For a present event it sends one exactly when the event is
`StaConnected`, the registration of the station receive callback succeeded,
the DHCP status is Stopped and the station's address, netmask and gateway are
all non-zero; every event sent is `StaGotIp` and carries an IpInfo without
zero field. -/
theorem process_default_sends_iff_static_ip {σ : Type} (C : Collab σ) (ev : system_event_t)
    (s : Sys σ) :
    (∃ r, esp_event_process_default (traced C) none s = some r ∧
      sent_events r.st.trace = sent_events s.trace) ∧
    (∃ r, esp_event_process_default (traced C) (some ev) s = some r ∧
      sent_events r.st.trace = sent_events s.trace ++ expected_injection C ev s.st) ∧
    (expected_injection C ev s.st).length ≤ 1 ∧
    ((expected_injection C ev s.st).length = 1 ↔
      (ev.event_id = SYSTEM_EVENT_STA_CONNECTED ∧
        (C.esp_wifi_internal_reg_rxcb .WIFI_IF_STA (some .tcpip_adapter_sta_input)
          (handler_entry C ev s.st)).err = ESP_OK ∧
        (sta_connected_status C (handler_entry C ev s.st)).out = TCPIP_ADAPTER_DHCP_STOPPED ∧
        (sta_connected_ip C (handler_entry C ev s.st)).out.ip.addr ≠ 0 ∧
        (sta_connected_ip C (handler_entry C ev s.st)).out.netmask.addr ≠ 0 ∧
        (sta_connected_ip C (handler_entry C ev s.st)).out.gw.addr ≠ 0)) ∧
    (∀ e ∈ expected_injection C ev s.st, e.event_id = SYSTEM_EVENT_STA_GOT_IP ∧
      ∃ I, e.event_info = .got_ip I ∧ I.ip.addr ≠ 0 ∧ I.netmask.addr ≠ 0 ∧ I.gw.addr ≠ 0) := by
  refine ⟨?_, process_default_sends_expected C ev s, ?_, ?_, ?_⟩
  · simp [esp_event_process_default, traced]
  · unfold expected_injection
    split_ifs <;> simp
  · unfold expected_injection
    split_ifs with h
    · simpa using h
    · simpa using h
  · unfold expected_injection
    split_ifs with h
    · intro e he
      rw [List.mem_singleton] at he
      subst he
      exact ⟨rfl, _, rfl, h.2.2.2.1, h.2.2.2.2.1, h.2.2.2.2.2⟩
    · intro e he
      simp at he

/-- The dispatcher at work for C19: with the static address it sends one
`StaGotIp`; with the gateway missing, and for a `StaDisconnected` event, it
sends nothing. -/
theorem process_default_sends_examples :
    (esp_event_process_default (traced nominal.collab)
        (some (event_of SYSTEM_EVENT_STA_CONNECTED)) (Sys.init ())).map
          (fun r => sent_events r.st.trace)
      = some [⟨SYSTEM_EVENT_STA_GOT_IP, .got_ip static_ip⟩] ∧
    (esp_event_process_default (traced nominal_no_gw.collab)
        (some (event_of SYSTEM_EVENT_STA_CONNECTED)) (Sys.init ())).map
          (fun r => sent_events r.st.trace) = some [] ∧
    (esp_event_process_default (traced nominal.collab)
        (some (event_of SYSTEM_EVENT_STA_DISCONNECTED)) (Sys.init ())).map
          (fun r => sent_events r.st.trace) = some [] :=
  ⟨rfl, rfl, rfl⟩

/-- The condition of C19 holds for a station with the static address
192.168.1.50: one event is to be sent, and it is `StaGotIp`. -/
theorem process_default_sends_iff_static_ip_witness :
    (expected_injection nominal.collab (event_of SYSTEM_EVENT_STA_CONNECTED) ()).length = 1 ∧
    (⟨SYSTEM_EVENT_STA_GOT_IP, .got_ip static_ip⟩ : system_event_t).event_id
      = SYSTEM_EVENT_STA_GOT_IP :=
  ⟨(process_default_sends_iff_static_ip nominal.collab (event_of SYSTEM_EVENT_STA_CONNECTED)
      (Sys.init ())).2.2.2.1.2 ⟨rfl, rfl, rfl, by decide, by decide, by decide⟩,
    ((process_default_sends_iff_static_ip nominal.collab (event_of SYSTEM_EVENT_STA_CONNECTED)
      (Sys.init ())).2.2.2.2 ⟨SYSTEM_EVENT_STA_GOT_IP, .got_ip static_ip⟩
        (by decide)).1⟩

/-! ## Isolation of the two roles -/

theorem calls_for_append (r : Role) (a b : List Call) :
    calls_for r (a ++ b) = calls_for r a ++ calls_for r b := by
  simp [calls_for]

/-- Claim C20: dispatching a station event (StaStart, StaStop, StaConnected,
StaDisconnected, StaGotIp) makes no call for the AccessPoint role, and with a
driver and adapter whose calls act on the state of the role they are made for
it leaves the AccessPoint part of their state as it was; dispatching an
access-point event (ApStart, ApStop) makes no call for the Station role and
leaves the Station part (interface state, receive callback, DHCP client) as it
was. -/
theorem roles_are_isolated {σ ρ β : Type} (C : Collab σ) (L : RoleLocal ρ β)
    (id : system_event_id_t) (info : system_event_info_t) (s : Sys σ)
    (w : Sys (Roles ρ β)) :
    (id ∈ [SYSTEM_EVENT_STA_START, SYSTEM_EVENT_STA_STOP, SYSTEM_EVENT_STA_CONNECTED,
        SYSTEM_EVENT_STA_DISCONNECTED, SYSTEM_EVENT_STA_GOT_IP] →
      (∃ r, esp_event_process_default (traced C) (some ⟨id, info⟩) s = some r ∧
        calls_for .AccessPoint r.st.trace = calls_for .AccessPoint s.trace) ∧
      (∃ r, esp_event_process_default (traced L.collab) (some ⟨id, info⟩) w = some r ∧
        r.st.st.ap = w.st.ap)) ∧
    (id ∈ [SYSTEM_EVENT_AP_START, SYSTEM_EVENT_AP_STOP] →
      (∃ r, esp_event_process_default (traced C) (some ⟨id, info⟩) s = some r ∧
        calls_for .Station r.st.trace = calls_for .Station s.trace) ∧
      (∃ r, esp_event_process_default (traced L.collab) (some ⟨id, info⟩) w = some r ∧
        r.st.st.sta = w.st.sta)) := by
  constructor
  · intro hid
    simp only [List.mem_cons, List.mem_singleton, List.not_mem_nil, or_false] at hid
    constructor
    · rcases hid with h | h | h | h | h <;> subst h <;>
        simp [esp_event_process_default, g_system_event_handle_table, esp_system_event_debug,
          system_event_sta_start_handle_default, system_event_sta_stop_handle_default,
          system_event_sta_connected_handle_default,
          system_event_sta_disconnected_handle_default, system_event_sta_got_ip_default,
          traced, Sys.run, Sys.runOut, Sys.record, calls_for_append, calls_for, Call.role,
          wifi_interface_t.role, tcpip_adapter_if_t.role,
          SYSTEM_EVENT_MAX, SYSTEM_EVENT_STA_START, SYSTEM_EVENT_STA_STOP,
          SYSTEM_EVENT_STA_CONNECTED, SYSTEM_EVENT_STA_DISCONNECTED, SYSTEM_EVENT_STA_GOT_IP] <;>
        split_ifs <;> simp [calls_for_append, calls_for, Call.role, wifi_interface_t.role,
          tcpip_adapter_if_t.role]
    · rcases hid with h | h | h | h | h <;> subst h <;>
        simp [esp_event_process_default, g_system_event_handle_table, esp_system_event_debug,
          system_event_sta_start_handle_default, system_event_sta_stop_handle_default,
          system_event_sta_connected_handle_default,
          system_event_sta_disconnected_handle_default, system_event_sta_got_ip_default,
          traced, Sys.run, Sys.runOut, Sys.record, RoleLocal.collab, Roles.get, Roles.set,
          wifi_interface_t.role, tcpip_adapter_if_t.role,
          SYSTEM_EVENT_MAX, SYSTEM_EVENT_STA_START, SYSTEM_EVENT_STA_STOP,
          SYSTEM_EVENT_STA_CONNECTED, SYSTEM_EVENT_STA_DISCONNECTED, SYSTEM_EVENT_STA_GOT_IP] <;>
        split_ifs <;> simp [Roles.get, Roles.set]
  · intro hid
    simp only [List.mem_cons, List.mem_singleton, List.not_mem_nil, or_false] at hid
    constructor
    · rcases hid with h | h <;> subst h <;>
        simp [esp_event_process_default, g_system_event_handle_table, esp_system_event_debug,
          system_event_ap_start_handle_default, system_event_ap_stop_handle_default,
          traced, Sys.run, Sys.runOut, Sys.record, calls_for_append, calls_for, Call.role,
          wifi_interface_t.role, tcpip_adapter_if_t.role,
          SYSTEM_EVENT_MAX, SYSTEM_EVENT_AP_START, SYSTEM_EVENT_AP_STOP] <;>
        split_ifs <;> simp [calls_for_append, calls_for, Call.role, wifi_interface_t.role,
          tcpip_adapter_if_t.role]
    · rcases hid with h | h <;> subst h <;>
        simp [esp_event_process_default, g_system_event_handle_table, esp_system_event_debug,
          system_event_ap_start_handle_default, system_event_ap_stop_handle_default,
          traced, Sys.run, Sys.runOut, Sys.record, RoleLocal.collab, Roles.get, Roles.set,
          wifi_interface_t.role, tcpip_adapter_if_t.role,
          SYSTEM_EVENT_MAX, SYSTEM_EVENT_AP_START, SYSTEM_EVENT_AP_STOP] <;>
        split_ifs <;> simp [Roles.get, Roles.set]

/-- The hypotheses of C20 hold for `StaConnected` and for `ApStart`: in the world
of `simple_ops`, with a connected station and a running AP, the first leaves
the AP as it was and the second leaves the station as it was. -/
theorem roles_are_isolated_witness :
    (∃ r, esp_event_process_default (traced (simple_ops no_faults).collab)
        (some ⟨SYSTEM_EVENT_STA_CONNECTED, .scan_done 0 0⟩)
        (Sys.init ⟨connected_sta, running_ap, ()⟩) = some r ∧
      r.st.st.ap = (Sys.init (⟨connected_sta, running_ap, ()⟩ : Roles netif_state Unit)).st.ap) ∧
    (∃ r, esp_event_process_default (traced (simple_ops no_faults).collab)
        (some ⟨SYSTEM_EVENT_AP_START, .scan_done 0 0⟩)
        (Sys.init ⟨connected_sta, running_ap, ()⟩) = some r ∧
      r.st.st.sta =
        (Sys.init (⟨connected_sta, running_ap, ()⟩ : Roles netif_state Unit)).st.sta) :=
  ⟨((roles_are_isolated nominal.collab (simple_ops no_faults) SYSTEM_EVENT_STA_CONNECTED
      (.scan_done 0 0) (Sys.init ()) (Sys.init ⟨connected_sta, running_ap, ()⟩)).1
        (by decide)).2,
    ((roles_are_isolated nominal.collab (simple_ops no_faults) SYSTEM_EVENT_AP_START
      (.scan_done 0 0) (Sys.init ()) (Sys.init ⟨connected_sta, running_ap, ()⟩)).2
        (by decide)).2⟩

/-- A station event does change the station part: after `StaDisconnected` the
station is down and has no receive callback, while the AP is as it was. -/
theorem sta_disconnected_in_simple_world :
    (esp_event_process_default (traced (simple_ops no_faults).collab)
        (some (event_of SYSTEM_EVENT_STA_DISCONNECTED))
        (Sys.init ⟨connected_sta, running_ap, ()⟩)).map
          (fun r => (r.st.st.sta.link_up, r.st.st.sta.rxcb, r.st.st.ap))
      = some (false, none, running_ap) := by
  decide

end EventDefaultHandlers
